import Mathlib

/-!
Verification of the housing buy-vs-rent model (Python package `housing`).

Shallow embedding conventions:
* Python floats are modelled as `ℚ` (exact rational arithmetic); every
  arithmetic operation of the source (`+ - * / ** max min` and comparisons)
  is a field operation, so the embedding is exact where the source is exact
  up to floating point rounding.
* Python exceptions are modelled with `Except String`.
* The NumPy arrays of the Monte Carlo engine (shape `(N,)` per year) are
  modelled as functions `Fin N → ℚ`; elementwise operations become pointwise
  definitions and `np.where` becomes `if` under the pointwise binder.
* The random number generator and Cholesky factorisation are not modelled;
  the Monte Carlo engine is parametrised by the post-transform shock values
  (`shocks : ℕ → Fin 5 → Fin N → ℚ`, per year, variable and path), which
  covers every realisation the generator can produce.
-/

namespace Housing

/-! ### Tax engine (`src/housing/tax.py`)

Bracket thresholds use `Option ℚ`, where `none` stands for the Python
`float("inf")` sentinel that terminates every bracket table. -/

/-- Python `str.upper()`: character-wise upper-casing (named thus because
`String.toUpper` exists but does not reduce in proofs; this is the same
function stated structurally). -/
def pyUpper (s : String) : String := ⟨s.data.map Char.toUpper⟩

/-- Threshold comparison: `g <= threshold`, with `none` meaning infinity. -/
def leThr (g : ℚ) : Option ℚ → Bool
  | some t => g ≤ t
  | none => true

/-- Band cap: `min(price, threshold)`, with `none` meaning infinity. -/
def minThr (price : ℚ) : Option ℚ → ℚ
  | some t => min price t
  | none => price

/-- Income brackets table `INCOME_BRACKETS_2025` from `tax.py`. -/
def INCOME_BRACKETS_2025 : List (Option ℚ × ℚ) :=
  [(some 18200, 0), (some 45000, 16/100), (some 135000, 30/100),
   (some 190000, 37/100), (none, 45/100)]

/-- Fixed Medicare levy constant from `tax.py`. -/
def MEDICARE_LEVY : ℚ := 2/100

/-- Loop body of `marginal_rate`: walks the bracket table keeping the last
rate seen, returning the first bracket whose threshold bounds the income. -/
def marginalRateLoop (g : ℚ) : ℚ → List (Option ℚ × ℚ) → ℚ
  | rate, [] => rate
  | _, (t, r) :: rest => if leThr g t then r else marginalRateLoop g r rest

/-- Embeds `marginal_rate` from `tax.py`: bracket rate plus Medicare levy. -/
def marginal_rate (gross_income : ℚ) : ℚ :=
  marginalRateLoop gross_income 0 INCOME_BRACKETS_2025 + MEDICARE_LEVY

/-- Numeric value of a finite threshold. The infinite sentinel `none` is the
last entry of every bracket table in the source, so its value is never
consulted as a `prev` accumulator; 0 here is arbitrary. -/
def thrVal : Option ℚ → ℚ
  | some t => t
  | none => 0

/-- Loop body of `_progressive_duty` with accumulators `duty` and `prev`,
including the early `break` when a band is empty. -/
def progressiveDutyLoop (price : ℚ) : ℚ → ℚ → List (Option ℚ × ℚ) → ℚ
  | duty, _, [] => duty
  | duty, prev, (t, r) :: rest =>
      let band := minThr price t - prev
      if band ≤ 0 then duty
      else progressiveDutyLoop price (duty + band * r) (thrVal t) rest

/-- Embeds `_progressive_duty` from `tax.py`. -/
def progressive_duty (price : ℚ) (brackets : List (Option ℚ × ℚ)) : ℚ :=
  progressiveDutyLoop price 0 0 brackets

/-- Embeds `calc_nsw_stamp_duty` from `tax.py`. -/
def calc_nsw_stamp_duty (price : ℚ) (first_home_buyer : Bool := false)
    (new_build : Bool := false) : ℚ :=
  if first_home_buyer ∧ price ≤ 800000 then 0
  else
    let brackets : List (Option ℚ × ℚ) :=
      [(some 17000, 125/10000), (some 36000, 15/1000), (some 97000, 175/10000),
       (some 364000, 35/1000), (some 1212000, 45/1000), (some 3636000, 55/1000),
       (none, 65/1000)]
    let duty := progressive_duty price brackets
    if first_home_buyer ∧ price ≤ 1000000 then
      let discount := 1 - (price - 800000) / 200000
      duty * (1 - discount)
    else duty

/-- Embeds `calc_vic_stamp_duty` from `tax.py`. -/
def calc_vic_stamp_duty (price : ℚ) (first_home_buyer : Bool := false)
    (new_build : Bool := false) : ℚ :=
  if first_home_buyer ∧ price ≤ 600000 then 0
  else
    let brackets : List (Option ℚ × ℚ) :=
      [(some 25000, 14/1000), (some 130000, 24/1000), (some 440000, 5/100),
       (some 960000, 6/100)]
    let duty := if price ≤ 960000 then progressive_duty price brackets
      else price * (55/1000)
    if first_home_buyer ∧ price ≤ 750000 then
      let discount := 1 - (price - 600000) / 150000
      duty * (1 - discount)
    else duty

/-- Embeds `_qld_home_concession_duty` from `tax.py`. -/
def qld_home_concession_duty (price : ℚ) : ℚ :=
  progressive_duty price
    [(some 75000, 15/1000), (some 540000, 35/1000), (some 1000000, 45/1000),
     (none, 575/10000)]

/-- Embeds `calc_qld_stamp_duty` from `tax.py`. -/
def calc_qld_stamp_duty (price : ℚ) (first_home_buyer : Bool := false)
    (new_build : Bool := false) : ℚ :=
  if first_home_buyer then
    let exempt_cap : ℚ := if new_build then 800000 else 700000
    if price ≤ exempt_cap then 0
    else
      let concession_cap := exempt_cap + 100000
      if price ≤ concession_cap then
        let full_duty := qld_home_concession_duty price
        let discount := 1 - (price - exempt_cap) / 100000
        full_duty * (1 - discount)
      else qld_home_concession_duty price
  else qld_home_concession_duty price

/-- Embeds the `calc_stamp_duty` dispatcher from `tax.py`: upper-cases the
state, looks it up among the three supported calculators, and raises
`ValueError` (modelled as `Except.error`) when the lookup fails. -/
def calc_stamp_duty (price : ℚ) (state : String := "NSW")
    (first_home_buyer : Bool := false) (new_build : Bool := false) :
    Except String ℚ :=
  let st := pyUpper state
  if st = "NSW" then .ok (calc_nsw_stamp_duty price first_home_buyer new_build)
  else if st = "VIC" then .ok (calc_vic_stamp_duty price first_home_buyer new_build)
  else if st = "QLD" then .ok (calc_qld_stamp_duty price first_home_buyer new_build)
  else .error "ValueError: Unknown state"

/-- Embeds `calc_cgt` from `tax.py`. -/
def calc_cgt (gains marginal_tax_rate : ℚ) (held_over_12_months : Bool := true)
    (is_ppor : Bool := false) : ℚ :=
  if is_ppor ∨ gains ≤ 0 then 0
  else
    let taxable := if held_over_12_months then gains * (50/100) else gains
    taxable * marginal_tax_rate

/-- Embeds the `FHOG_AMOUNTS` lookup from `tax.py` (`dict.get` with default 0). -/
def FHOG_AMOUNTS (st : String) : ℚ :=
  if st = "NSW" then 10000 else if st = "VIC" then 10000
  else if st = "QLD" then 30000 else 0

/-- Embeds `fhog` from `tax.py`. -/
def fhog (state : String := "NSW") (new_build : Bool := false) (price : ℚ := 0) : ℚ :=
  if ¬ new_build then 0
  else
    let amount := FHOG_AMOUNTS (pyUpper state)
    if pyUpper state = "QLD" ∧ price > 750000 then 0 else amount

/-! ### Parameter model (`src/housing/params.py`)

Dataclass field defaults are carried as Lean structure field defaults.
`mortgage_term_years` and rate-schedule years are Python ints, modelled as
`ℕ`; `rate_schedule : Option ...` models the `None` default. -/

/-- Embeds the `BuyParams` dataclass. -/
structure BuyParams where
  purchase_price : ℚ := 800000
  deposit_pct : ℚ := 20/100
  mortgage_rate : ℚ := 62/1000
  mortgage_term_years : ℕ := 30
  property_appreciation_rate : ℚ := 5/100
  stamp_duty_override : Option ℚ := none
  lmi : ℚ := 0
  state : String := "NSW"
  first_home_buyer : Bool := false
  new_build : Bool := false
  rate_schedule : Option (List (ℕ × ℚ)) := none
  council_rates_pct : ℚ := 3/1000
  insurance_pct : ℚ := 2/1000
  maintenance_pct : ℚ := 1/100
  water_rates_annual : ℚ := 1200
  strata_annual : ℚ := 0
  selling_agent_pct : ℚ := 2/100
  selling_legal : ℚ := 2000
  deriving Repr, DecidableEq

/-- Embeds the derived property `BuyParams.deposit`. -/
def BuyParams.deposit (b : BuyParams) : ℚ := b.purchase_price * b.deposit_pct

/-- Embeds the derived property `BuyParams.loan_amount`. -/
def BuyParams.loan_amount (b : BuyParams) : ℚ := b.purchase_price - b.deposit

/-- Embeds `BuyParams.get_stamp_duty`; fallible because `calc_stamp_duty`
raises on unsupported states. -/
def BuyParams.get_stamp_duty (b : BuyParams) : Except String ℚ :=
  match b.stamp_duty_override with
  | some d => .ok d
  | none => calc_stamp_duty b.purchase_price b.state b.first_home_buyer b.new_build

/-- Lexicographic order on schedule entries used by Python `sorted` on
`(year, rate)` tuples. -/
def schedLE (a b : ℕ × ℚ) : Bool :=
  a.1 < b.1 ∨ (a.1 = b.1 ∧ a.2 ≤ b.2)

/-- Loop body of `BuyParams.rate_for_year`: scans the sorted schedule keeping
the most recent entry whose start year is at or before `year`, stopping at
the first later entry. -/
def rateForYearLoop (year : ℕ) : ℚ → List (ℕ × ℚ) → ℚ
  | app, [] => app
  | app, (from_year, r) :: rest =>
      if from_year ≤ year then rateForYearLoop year r rest else app

/-- Embeds `BuyParams.rate_for_year`. Python `if not self.rate_schedule`
treats both `None` and the empty list as absent. -/
def BuyParams.rate_for_year (b : BuyParams) (year : ℕ) : ℚ :=
  match b.rate_schedule with
  | none => b.mortgage_rate
  | some [] => b.mortgage_rate
  | some sched => rateForYearLoop year b.mortgage_rate (sched.mergeSort schedLE)

/-- Embeds the `RentParams` dataclass. -/
structure RentParams where
  weekly_rent : ℚ := 650
  rent_increase_rate : ℚ := 4/100
  renters_insurance_annual : ℚ := 300
  deriving Repr, DecidableEq

/-- Embeds the `InvestmentParams` dataclass. -/
structure InvestmentParams where
  return_rate : ℚ := 7/100
  dividend_yield : ℚ := 2/100
  franking_rate : ℚ := 0
  deriving Repr, DecidableEq

/-- Embeds the `TaxParams` dataclass. -/
structure TaxParams where
  gross_income : ℚ := 180000
  deriving Repr, DecidableEq

/-- Embeds the derived property `TaxParams.marginal_rate`. -/
def TaxParams.marginal_rate (t : TaxParams) : ℚ :=
  Housing.marginal_rate t.gross_income

/-- Embeds the `ScenarioParams` dataclass. -/
structure ScenarioParams where
  buy : BuyParams := {}
  rent : RentParams := {}
  investment : InvestmentParams := {}
  tax : TaxParams := {}
  inflation_rate : ℚ := 3/100
  time_horizon_years : ℕ := 30
  existing_savings : ℚ := 200000
  deriving Repr, DecidableEq

/-! ### Deterministic engine (`src/housing/model.py`) -/

/-- Embeds the `YearSnapshot` dataclass. -/
structure YearSnapshot where
  year : ℕ
  property_value : ℚ
  mortgage_balance : ℚ
  mortgage_rate_used : ℚ
  buy_housing_costs : ℚ
  buy_cumulative_costs : ℚ
  buy_equity : ℚ
  buy_investments : ℚ
  buy_contributions : ℚ
  buy_net_worth : ℚ
  buy_net_worth_real : ℚ
  annual_rent : ℚ
  rent_housing_costs : ℚ
  rent_cumulative_costs : ℚ
  rent_investments : ℚ
  rent_contributions : ℚ
  rent_net_worth : ℚ
  rent_net_worth_real : ℚ
  net_worth_difference : ℚ
  net_worth_difference_real : ℚ
  deriving Repr, DecidableEq, Inhabited

/-- Embeds `monthly_repayment` from `model.py`. The source takes a year
count and uses `n = years * 12` months; every call site passes a whole
number of months (either `term_years` or `remaining_months / 12`), so the
embedding takes the month count `n` directly. -/
def monthly_repayment (principal annual_rate : ℚ) (n : ℕ) : ℚ :=
  if annual_rate = 0 then principal / (n : ℚ)
  else
    let r := annual_rate / 12
    principal * (r * (1 + r) ^ n) / ((1 + r) ^ n - 1)

/-- Single month of `mortgage_balance_after_year`: interest accrual, capped
principal (the source caps `principal` at `balance` and zeroes the interest
in the same branch), and updated running totals. -/
def amortizeMonth (annual_rate monthly_payment : ℚ) (st : ℚ × ℚ × ℚ) :
    ℚ × ℚ × ℚ :=
  let (balance, total_principal, total_interest) := st
  let interest := balance * (annual_rate / 12)
  let principal := monthly_payment - interest
  let principal2 := if principal > balance then balance else principal
  let interest2 := if principal > balance then 0 else interest
  (balance - principal2, total_principal + principal2,
    total_interest + interest2)

/-- The 12-iteration loop of `mortgage_balance_after_year` by fuel,
including the `break` once the updated balance reaches 0. -/
def amortizeLoop (annual_rate monthly_payment : ℚ) :
    ℕ → ℚ × ℚ × ℚ → ℚ × ℚ × ℚ
  | 0, st => st
  | m + 1, st =>
      let st2 := amortizeMonth annual_rate monthly_payment st
      if st2.1 ≤ 0 then st2 else amortizeLoop annual_rate monthly_payment m st2

/-- Embeds `mortgage_balance_after_year` from `model.py`: 12 monthly steps,
returning `(max(balance, 0), total_principal, total_interest)`. -/
def mortgage_balance_after_year (balance annual_rate monthly_payment : ℚ) :
    ℚ × ℚ × ℚ :=
  let (b, tp, ti) := amortizeLoop annual_rate monthly_payment 12 (balance, 0, 0)
  (max b 0, tp, ti)

/-- Embeds `_grow_investments` from `model.py`. -/
def grow_investments (portfolio inv_return_rate dividend_yield mrate : ℚ) : ℚ :=
  let gross_return := portfolio * inv_return_rate
  let dividend_portion :=
    if inv_return_rate > 0 then dividend_yield / inv_return_rate else 0
  let dividend_tax := gross_return * dividend_portion * mrate
  portfolio + gross_return - dividend_tax

/-- Mutable locals of the year loop in `simulate`. -/
structure DetState where
  property_value : ℚ
  mortgage_bal : ℚ
  current_rate : ℚ
  monthly_pmt : ℚ
  buy_investments : ℚ
  buy_contributions : ℚ
  buy_cumulative : ℚ
  rent_investments : ℚ
  rent_contributions : ℚ
  rent_cumulative : ℚ
  weekly_rent : ℚ
  deriving Repr, DecidableEq

/-- Upfront buy cost of `simulate` year 0: deposit + stamp duty + LMI
(`sd` is the already-computed stamp duty). -/
def detUpfront (p : ScenarioParams) (sd : ℚ) : ℚ :=
  p.buy.deposit + sd + p.buy.lmi

/-- Initial loop state of `simulate` (year 0). -/
def detInit (p : ScenarioParams) (sd : ℚ) : DetState :=
  let upfront := detUpfront p sd
  let current_rate := p.buy.rate_for_year 1
  { property_value := p.buy.purchase_price
    mortgage_bal := p.buy.loan_amount
    current_rate := current_rate
    monthly_pmt := monthly_repayment p.buy.loan_amount current_rate
      (p.buy.mortgage_term_years * 12)
    buy_investments := max (p.existing_savings - upfront) 0
    buy_contributions := max (p.existing_savings - upfront) 0
    buy_cumulative := upfront
    rent_investments := p.existing_savings
    rent_contributions := p.existing_savings
    rent_cumulative := 0
    weekly_rent := p.rent.weekly_rent }

/-- Year-0 snapshot appended by `simulate` before the loop. -/
def detSnapshot0 (p : ScenarioParams) (sd : ℚ) : YearSnapshot :=
  let s := detInit p sd
  let buy_nw := (s.property_value - s.mortgage_bal) + s.buy_investments
  let rent_nw := s.rent_investments
  { year := 0
    property_value := s.property_value
    mortgage_balance := s.mortgage_bal
    mortgage_rate_used := s.current_rate
    buy_housing_costs := detUpfront p sd
    buy_cumulative_costs := s.buy_cumulative
    buy_equity := s.property_value - s.mortgage_bal
    buy_investments := s.buy_investments
    buy_contributions := s.buy_contributions
    buy_net_worth := buy_nw
    buy_net_worth_real := buy_nw
    annual_rent := 0
    rent_housing_costs := 0
    rent_cumulative_costs := 0
    rent_investments := s.rent_investments
    rent_contributions := s.rent_contributions
    rent_net_worth := rent_nw
    rent_net_worth_real := rent_nw
    net_worth_difference := buy_nw - rent_nw
    net_worth_difference_real := buy_nw - rent_nw }

/-- One iteration of the year loop in `simulate`, producing the updated
loop state and the snapshot appended for `year`. -/
def detStep (p : ScenarioParams) (year : ℕ) (s : DetState) :
    DetState × YearSnapshot :=
  let buy := p.buy
  let deflator := (1 + p.inflation_rate) ^ year
  let year_rate := buy.rate_for_year year
  let remaining_months : ℤ :=
    ((buy.mortgage_term_years : ℤ) - ((year : ℤ) - 1)) * 12
  let (current_rate, monthly_pmt) :=
    if year_rate ≠ s.current_rate ∧ s.mortgage_bal > 0 then
      (year_rate,
        if remaining_months > 0 then
          monthly_repayment s.mortgage_bal year_rate remaining_months.toNat
        else s.monthly_pmt)
    else (s.current_rate, s.monthly_pmt)
  let (mortgage_bal, principal_paid, interest_paid) :=
    if s.mortgage_bal > 0 then
      mortgage_balance_after_year s.mortgage_bal current_rate monthly_pmt
    else (s.mortgage_bal, 0, 0)
  let annual_mortgage := principal_paid + interest_paid
  let property_value := s.property_value * (1 + buy.property_appreciation_rate)
  let water_cost := buy.water_rates_annual * (1 + p.inflation_rate) ^ year
  let strata_cost := buy.strata_annual * (1 + p.inflation_rate) ^ year
  let ongoing := property_value * buy.council_rates_pct
    + property_value * buy.insurance_pct
    + property_value * buy.maintenance_pct + water_cost + strata_cost
  let buy_year_costs := annual_mortgage + ongoing
  let buy_cumulative := s.buy_cumulative + buy_year_costs
  let buy_investments := grow_investments s.buy_investments
    p.investment.return_rate p.investment.dividend_yield p.tax.marginal_rate
  let annual_rent_cost := s.weekly_rent * 52
  let renters_ins :=
    p.rent.renters_insurance_annual * (1 + p.inflation_rate) ^ year
  let rent_year_costs := annual_rent_cost + renters_ins
  let rent_cumulative := s.rent_cumulative + rent_year_costs
  let rent_investments := grow_investments s.rent_investments
    p.investment.return_rate p.investment.dividend_yield p.tax.marginal_rate
  let (buy_investments, buy_contributions, rent_investments, rent_contributions) :=
    if buy_year_costs > rent_year_costs then
      let surplus := buy_year_costs - rent_year_costs
      let surplus_with_growth := surplus * (1 + p.investment.return_rate / 2)
      (buy_investments, s.buy_contributions,
       rent_investments + surplus_with_growth, s.rent_contributions + surplus)
    else if rent_year_costs > buy_year_costs then
      let surplus := rent_year_costs - buy_year_costs
      let surplus_with_growth := surplus * (1 + p.investment.return_rate / 2)
      (buy_investments + surplus_with_growth, s.buy_contributions + surplus,
       rent_investments, s.rent_contributions)
    else (buy_investments, s.buy_contributions, rent_investments,
      s.rent_contributions)
  let buy_equity := property_value - mortgage_bal
  let buy_nw := buy_equity + buy_investments
  let rent_nw := rent_investments
  let buy_nw_real := buy_nw / deflator
  let rent_nw_real := rent_nw / deflator
  let weekly_rent := s.weekly_rent * (1 + p.rent.rent_increase_rate)
  ({ property_value := property_value
     mortgage_bal := mortgage_bal
     current_rate := current_rate
     monthly_pmt := monthly_pmt
     buy_investments := buy_investments
     buy_contributions := buy_contributions
     buy_cumulative := buy_cumulative
     rent_investments := rent_investments
     rent_contributions := rent_contributions
     rent_cumulative := rent_cumulative
     weekly_rent := weekly_rent },
   { year := year
     property_value := property_value
     mortgage_balance := mortgage_bal
     mortgage_rate_used := current_rate
     buy_housing_costs := buy_year_costs
     buy_cumulative_costs := buy_cumulative
     buy_equity := buy_equity
     buy_investments := buy_investments
     buy_contributions := buy_contributions
     buy_net_worth := buy_nw
     buy_net_worth_real := buy_nw_real
     annual_rent := annual_rent_cost
     rent_housing_costs := rent_year_costs
     rent_cumulative_costs := rent_cumulative
     rent_investments := rent_investments
     rent_contributions := rent_contributions
     rent_net_worth := rent_nw
     rent_net_worth_real := rent_nw_real
     net_worth_difference := buy_nw - rent_nw
     net_worth_difference_real := buy_nw_real - rent_nw_real })

/-- Loop state of `simulate` at the end of year `y`. -/
def detStateAt (p : ScenarioParams) (sd : ℚ) : ℕ → DetState
  | 0 => detInit p sd
  | y + 1 => (detStep p (y + 1) (detStateAt p sd y)).1

/-- Snapshot list built by `simulate` given the computed stamp duty. -/
def simulateCore (p : ScenarioParams) (sd : ℚ) : List YearSnapshot :=
  detSnapshot0 p sd ::
    (List.range p.time_horizon_years).map
      (fun i => (detStep p (i + 1) (detStateAt p sd i)).2)

/-- Embeds `simulate` from `model.py`; fallible only through the stamp duty
dispatch at year 0. -/
def simulate (p : ScenarioParams) : Except String (List YearSnapshot) :=
  (p.buy.get_stamp_duty).map (simulateCore p)

/-- Result record of `net_worth_at_sale` (a Python dict with fixed keys). -/
structure SaleResult where
  year : ℕ
  buy_net_worth_after_sale : ℚ
  buy_net_worth_after_sale_real : ℚ
  rent_net_worth_after_tax : ℚ
  rent_net_worth_after_tax_real : ℚ
  difference : ℚ
  difference_real : ℚ
  buy_wins : Bool
  deriving Repr, DecidableEq

/-- Embeds `net_worth_at_sale` from `model.py`. -/
def net_worth_at_sale (snapshot : YearSnapshot) (params : ScenarioParams) :
    SaleResult :=
  let buy := params.buy
  let sale_proceeds :=
    snapshot.property_value * (1 - buy.selling_agent_pct) - buy.selling_legal
  let buy_after_sale :=
    max (sale_proceeds - snapshot.mortgage_balance) 0 + snapshot.buy_investments
  let buy_inv_gains := max (snapshot.buy_investments - snapshot.buy_contributions) 0
  let buy_inv_cgt := calc_cgt buy_inv_gains params.tax.marginal_rate true false
  let buy_after_sale := buy_after_sale - buy_inv_cgt
  let rent_gains := max (snapshot.rent_investments - snapshot.rent_contributions) 0
  let rent_cgt := calc_cgt rent_gains params.tax.marginal_rate true false
  let rent_after_tax := snapshot.rent_investments - rent_cgt
  let deflator := (1 + params.inflation_rate) ^ snapshot.year
  { year := snapshot.year
    buy_net_worth_after_sale := buy_after_sale
    buy_net_worth_after_sale_real := buy_after_sale / deflator
    rent_net_worth_after_tax := rent_after_tax
    rent_net_worth_after_tax_real := rent_after_tax / deflator
    difference := buy_after_sale - rent_after_tax
    difference_real := (buy_after_sale - rent_after_tax) / deflator
    buy_wins := buy_after_sale > rent_after_tax }

/-! ### Monte Carlo engine (`src/housing/mc_params.py`, `src/housing/monte_carlo.py`)

The engine is embedded per the file header: arrays of shape `(N,)` become
`Fin N → ℚ` and the correlated normal draws become an uninterpreted shock
family, one vector of five shocks per year and path. Everything after the
draw (`realized = base + shock` onwards) is embedded from the source. -/

/-- Embeds `FLOORS` from `mc_params.py` (variable order: appreciation,
investment return, rent increase, inflation, mortgage rate). -/
def FLOORS : Fin 5 → ℚ := ![-(20/100), -(40/100), 0, 0, 1/100]

/-- Embeds `CEILINGS` from `mc_params.py`. -/
def CEILINGS : Fin 5 → ℚ := ![30/100, 50/100, 15/100, 12/100, 15/100]

/-- Elementwise `np.clip(x, lo, hi)`: `min(max(x, lo), hi)`. -/
def clip (x lo hi : ℚ) : ℚ := min (max x lo) hi

/-- Base means vector for the five stochastic variables in `mc_simulate`. -/
def baseMeans (p : ScenarioParams) : Fin 5 → ℚ :=
  ![p.buy.property_appreciation_rate, p.investment.return_rate,
    p.rent.rent_increase_rate, p.inflation_rate, p.buy.mortgage_rate]

/-- Scalar franking-adjusted effective dividend tax rate computed before the
year loop of `mc_simulate` (`corp_rate = 0.30`). -/
def effectiveDivRate (p : ScenarioParams) : ℚ :=
  let tax_rate := marginal_rate p.tax.gross_income
  let corp_rate : ℚ := 30/100
  let franked_tax_rate :=
    if tax_rate > corp_rate then (tax_rate - corp_rate) / (1 - corp_rate) else 0
  p.investment.franking_rate * franked_tax_rate
    + (1 - p.investment.franking_rate) * tax_rate

/-- Per-path loop state of `mc_simulate` plus the scalar
`prev_sched_rate` tracker. -/
structure MCState (N : ℕ) where
  property_value : Fin N → ℚ
  mortgage_bal : Fin N → ℚ
  current_rate : Fin N → ℚ
  monthly_pmt : Fin N → ℚ
  buy_investments : Fin N → ℚ
  buy_contributions : Fin N → ℚ
  rent_investments : Fin N → ℚ
  rent_contributions : Fin N → ℚ
  weekly_rent : Fin N → ℚ
  prev_sched_rate : ℚ

/-- Agreement relation between a Monte Carlo state and a deterministic
loop state: every tracked per-path grid is constant at the deterministic
scalar (contribution cost bases are excluded — the engines track those
differently and they feed back into no tracked quantity), and the schedule
tracker sits at the base mortgage rate. -/
def MCAgreesDet {N : ℕ} (p : ScenarioParams) (mc : MCState N)
    (d : DetState) : Prop :=
  (∀ i, mc.property_value i = d.property_value) ∧
  (∀ i, mc.mortgage_bal i = d.mortgage_bal) ∧
  (∀ i, mc.current_rate i = d.current_rate) ∧
  (∀ i, mc.monthly_pmt i = d.monthly_pmt) ∧
  (∀ i, mc.buy_investments i = d.buy_investments) ∧
  (∀ i, mc.rent_investments i = d.rent_investments) ∧
  (∀ i, mc.weekly_rent i = d.weekly_rent) ∧
  mc.prev_sched_rate = p.buy.mortgage_rate

/-- Proof abbreviation: the buy-side year costs computed by the `simulate`
loop body for a state whose rate is not being recomputed this year
(mortgage principal plus interest plus ongoing ownership costs). -/
def detBuyCosts (p : ScenarioParams) (year : ℕ) (s : DetState) : ℚ :=
  let mort := if s.mortgage_bal > 0 then
      mortgage_balance_after_year s.mortgage_bal s.current_rate s.monthly_pmt
    else (s.mortgage_bal, 0, 0)
  let property_value := s.property_value * (1 + p.buy.property_appreciation_rate)
  mort.2.1 + mort.2.2
    + (property_value * p.buy.council_rates_pct
      + property_value * p.buy.insurance_pct
      + property_value * p.buy.maintenance_pct
      + p.buy.water_rates_annual * (1 + p.inflation_rate) ^ year
      + p.buy.strata_annual * (1 + p.inflation_rate) ^ year)

/-- Proof abbreviation: the rent-side year costs computed by the `simulate`
loop body. -/
def detRentCosts (p : ScenarioParams) (year : ℕ) (s : DetState) : ℚ :=
  s.weekly_rent * 52
    + p.rent.renters_insurance_annual * (1 + p.inflation_rate) ^ year

/-- Upfront buy cost in `mc_simulate`: unlike the deterministic engine it
subtracts the first home owner grant when `first_home_buyer` is set. -/
def mcUpfront (p : ScenarioParams) (sd : ℚ) : ℚ :=
  let grant := if p.buy.first_home_buyer then
    fhog p.buy.state p.buy.new_build p.buy.purchase_price else 0
  p.buy.deposit + sd + p.buy.lmi - grant

/-- Initial (year 0) state of `mc_simulate`: scalars broadcast to all paths. -/
def mcInit (N : ℕ) (p : ScenarioParams) (sd : ℚ) : MCState N :=
  let initial_pmt := monthly_repayment p.buy.loan_amount (p.buy.rate_for_year 1)
    (p.buy.mortgage_term_years * 12)
  { property_value := fun _ => p.buy.purchase_price
    mortgage_bal := fun _ => p.buy.loan_amount
    current_rate := fun _ => p.buy.rate_for_year 1
    monthly_pmt := fun _ => initial_pmt
    buy_investments := fun _ => max (p.existing_savings - mcUpfront p sd) 0
    buy_contributions := fun _ => max (p.existing_savings - mcUpfront p sd) 0
    rent_investments := fun _ => p.existing_savings
    rent_contributions := fun _ => p.existing_savings
    weekly_rent := fun _ => p.rent.weekly_rent
    prev_sched_rate := p.buy.rate_for_year 1 }

/-- One iteration of the year loop of `mc_simulate`, from the point where
the correlated shocks for this year are already drawn (`shock v i` is the
shock to variable `v` on path `i`). -/
def mcStep (p : ScenarioParams) {N : ℕ} (shock : Fin 5 → Fin N → ℚ)
    (year : ℕ) (s : MCState N) : MCState N :=
  let buy := p.buy
  let realized : Fin 5 → Fin N → ℚ :=
    fun v i => clip (baseMeans p v + shock v i) (FLOORS v) (CEILINGS v)
  let prop_appr := realized 0
  let inv_return := realized 1
  let rent_inc := realized 2
  let inflation_yr := realized 3
  let sched_rate := buy.rate_for_year year
  let (mort_rate, prev_sched_rate) :=
    if sched_rate ≠ s.prev_sched_rate then
      (fun i => clip (realized 4 i + (sched_rate - s.prev_sched_rate))
        (FLOORS 4) (CEILINGS 4), sched_rate)
    else (realized 4, s.prev_sched_rate)
  let (monthly_pmt, current_rate) :=
    if (∃ i, mort_rate i ≠ s.current_rate i) ∨ year = 1 then
      let remaining_months : ℤ :=
        ((buy.mortgage_term_years : ℤ) - ((year : ℤ) - 1)) * 12
      let pmt :=
        if remaining_months > 0 then
          let n_months := remaining_months.toNat
          fun i =>
            let r_monthly := mort_rate i / 12
            let factor :=
              if mort_rate i = 0 then 1 / (n_months : ℚ)
              else r_monthly * (1 + r_monthly) ^ n_months
                / ((1 + r_monthly) ^ n_months - 1)
            if s.mortgage_bal i > 0 then s.mortgage_bal i * factor else 0
        else s.monthly_pmt
      (pmt, mort_rate)
    else (s.monthly_pmt, s.current_rate)
  let r_m := fun i => current_rate i / 12
  let has_mortgage := fun i => s.mortgage_bal i > 0
  let compound_12 := fun i => if r_m i > 0 then (1 + r_m i) ^ 12 else 1
  let annuity_12 := fun i =>
    if r_m i > 0 then (compound_12 i - 1) / r_m i else 12
  let new_bal := fun i =>
    max (if has_mortgage i then
      s.mortgage_bal i * compound_12 i - monthly_pmt i * annuity_12 i
      else 0) 0
  let total_payments := fun i => if has_mortgage i then monthly_pmt i * 12 else 0
  let principal_paid := fun i =>
    if has_mortgage i then s.mortgage_bal i - new_bal i else 0
  let interest_paid := fun i =>
    if has_mortgage i then total_payments i - principal_paid i else 0
  let mortgage_bal := new_bal
  let annual_mortgage := fun i => principal_paid i + interest_paid i
  let property_value := fun i => s.property_value i * (1 + prop_appr i)
  let deflator_yr := fun i => (1 + inflation_yr i) ^ year
  let ongoing := fun i =>
    property_value i * buy.council_rates_pct
    + property_value i * buy.insurance_pct
    + property_value i * buy.maintenance_pct
    + buy.water_rates_annual * deflator_yr i
    + buy.strata_annual * deflator_yr i
  let buy_year_costs := fun i => annual_mortgage i + ongoing i
  let buy_gross := fun i => s.buy_investments i * inv_return i
  let buy_dividends := fun i => s.buy_investments i * p.investment.dividend_yield
  let buy_div_tax := fun i => buy_dividends i * effectiveDivRate p
  let buy_reinvested_div := fun i => buy_dividends i - buy_div_tax i
  let buy_investments := fun i => s.buy_investments i + buy_gross i - buy_div_tax i
  let buy_contributions := fun i => s.buy_contributions i + buy_reinvested_div i
  let annual_rent := fun i => s.weekly_rent i * 52
  let rent_year_costs := fun i =>
    annual_rent i + p.rent.renters_insurance_annual * deflator_yr i
  let rent_gross := fun i => s.rent_investments i * inv_return i
  let rent_dividends := fun i => s.rent_investments i * p.investment.dividend_yield
  let rent_div_tax := fun i => rent_dividends i * effectiveDivRate p
  let rent_reinvested_div := fun i => rent_dividends i - rent_div_tax i
  let rent_investments := fun i =>
    s.rent_investments i + rent_gross i - rent_div_tax i
  let rent_contributions := fun i => s.rent_contributions i + rent_reinvested_div i
  let surplus_to_rent := fun i =>
    if buy_year_costs i > rent_year_costs i then buy_year_costs i - rent_year_costs i
    else 0
  let surplus_to_buy := fun i =>
    if rent_year_costs i > buy_year_costs i then rent_year_costs i - buy_year_costs i
    else 0
  let rent_investments := fun i =>
    rent_investments i + surplus_to_rent i * (1 + inv_return i / 2)
  let rent_contributions := fun i => rent_contributions i + surplus_to_rent i
  let buy_investments := fun i =>
    buy_investments i + surplus_to_buy i * (1 + inv_return i / 2)
  let buy_contributions := fun i => buy_contributions i + surplus_to_buy i
  let weekly_rent := fun i => s.weekly_rent i * (1 + rent_inc i)
  { property_value := property_value
    mortgage_bal := mortgage_bal
    current_rate := current_rate
    monthly_pmt := monthly_pmt
    buy_investments := buy_investments
    buy_contributions := buy_contributions
    rent_investments := rent_investments
    rent_contributions := rent_contributions
    weekly_rent := weekly_rent
    prev_sched_rate := prev_sched_rate }

/-- Proof abbreviation: the buy-side year costs (`buy_year_costs[i]`)
computed inside one `mc_simulate` year iteration, written in terms of the
step's own output fields. -/
def mcBuyCostsAt (p : ScenarioParams) {N : ℕ} (shock : Fin 5 → Fin N → ℚ)
    (year : ℕ) (s : MCState N) (i : Fin N) : ℚ :=
  let new_bal := (mcStep p shock year s).mortgage_bal i
  let pmt := (mcStep p shock year s).monthly_pmt i
  let principal := if s.mortgage_bal i > 0 then s.mortgage_bal i - new_bal else 0
  let interest := if s.mortgage_bal i > 0 then
    (if s.mortgage_bal i > 0 then pmt * 12 else 0) - principal else 0
  let property_value := s.property_value i
    * (1 + clip (baseMeans p 0 + shock 0 i) (FLOORS 0) (CEILINGS 0))
  let deflator :=
    (1 + clip (baseMeans p 3 + shock 3 i) (FLOORS 3) (CEILINGS 3)) ^ year
  principal + interest
    + (property_value * p.buy.council_rates_pct
      + property_value * p.buy.insurance_pct
      + property_value * p.buy.maintenance_pct
      + p.buy.water_rates_annual * deflator
      + p.buy.strata_annual * deflator)

/-- Proof abbreviation: the rent-side year costs (`rent_year_costs[i]`)
computed inside one `mc_simulate` year iteration. -/
def mcRentCostsAt (p : ScenarioParams) {N : ℕ} (shock : Fin 5 → Fin N → ℚ)
    (year : ℕ) (s : MCState N) (i : Fin N) : ℚ :=
  s.weekly_rent i * 52
    + p.rent.renters_insurance_annual
      * (1 + clip (baseMeans p 3 + shock 3 i) (FLOORS 3) (CEILINGS 3)) ^ year

/-- Loop state of `mc_simulate` at the end of year `y`. -/
def mcStateAt (N : ℕ) (p : ScenarioParams) (sd : ℚ)
    (shocks : ℕ → Fin 5 → Fin N → ℚ) : ℕ → MCState N
  | 0 => mcInit N p sd
  | y + 1 => mcStep p (shocks (y + 1)) (y + 1) (mcStateAt N p sd shocks y)

/-- Output grid `property_values[year][path]` of `mc_simulate`. -/
def mcPropertyValues (N : ℕ) (p : ScenarioParams) (sd : ℚ)
    (shocks : ℕ → Fin 5 → Fin N → ℚ) (year : ℕ) (i : Fin N) : ℚ :=
  (mcStateAt N p sd shocks year).property_value i

/-- Output grid `mortgage_balances[year][path]` of `mc_simulate`. -/
def mcMortgageBalances (N : ℕ) (p : ScenarioParams) (sd : ℚ)
    (shocks : ℕ → Fin 5 → Fin N → ℚ) (year : ℕ) (i : Fin N) : ℚ :=
  (mcStateAt N p sd shocks year).mortgage_bal i

/-- Output grid `buy_net_worth[year][path]` of `mc_simulate` (recorded as
equity plus investments, for year 0 and each loop year alike). -/
def mcBuyNetWorth (N : ℕ) (p : ScenarioParams) (sd : ℚ)
    (shocks : ℕ → Fin 5 → Fin N → ℚ) (year : ℕ) (i : Fin N) : ℚ :=
  let s := mcStateAt N p sd shocks year
  (s.property_value i - s.mortgage_bal i) + s.buy_investments i

/-- Output grid `rent_net_worth[year][path]` of `mc_simulate`. -/
def mcRentNetWorth (N : ℕ) (p : ScenarioParams) (sd : ℚ)
    (shocks : ℕ → Fin 5 → Fin N → ℚ) (year : ℕ) (i : Fin N) : ℚ :=
  (mcStateAt N p sd shocks year).rent_investments i

/-! ### Config loading (`src/housing/config.py`)

`dict_to_params` is embedded over an abstract JSON-like value type. Python
dict keys are unique; rate-schedule entries arrive already normalised to
`(year, rate)` pairs (the source converts `{year, rate}` dicts and pair
lists to tuples before constructing `BuyParams`, a JSON-level duality that
the embedding folds into the `sched` constructor). Keyword-argument calls
`BuyParams(**data)` raise `TypeError` exactly when a key is not an
`__init__` field; `hasattr(Cls, k)` is true for dataclass fields (they all
have defaults, hence class attributes) and also for the source-declared
properties and methods of the class, which is what the attribute-name lists
below record. -/

/-- JSON-like Python value for config mappings. -/
inductive PyVal where
  | num (q : ℚ)
  | pybool (b : Bool)
  | str (s : String)
  | sched (entries : List (ℕ × ℚ))
  | pynone
  | dict (entries : List (String × PyVal))

/-- Python `d.get(k)` on a string-keyed dict. -/
def lookupKey (d : List (String × PyVal)) (k : String) : Option PyVal :=
  (d.find? (fun e => e.1 = k)).map (fun e => e.2)

/-- Python `data.get(k, {})` followed by use as a mapping. -/
def subDict (d : List (String × PyVal)) (k : String) : List (String × PyVal) :=
  match lookupKey d k with
  | some (.dict sub) => sub
  | _ => []

/-- Constructor (`__init__`) field names of `BuyParams`. -/
def buyFieldNames : List String :=
  ["purchase_price", "deposit_pct", "mortgage_rate", "mortgage_term_years",
   "property_appreciation_rate", "stamp_duty_override", "lmi", "state",
   "first_home_buyer", "new_build", "rate_schedule", "council_rates_pct",
   "insurance_pct", "maintenance_pct", "water_rates_annual", "strata_annual",
   "selling_agent_pct", "selling_legal"]

/-- Properties and methods of `BuyParams`: class attributes that are not
constructor fields (dunder attributes are outside the documented shape and
not modelled). -/
def buyExtraAttrNames : List String :=
  ["deposit", "loan_amount", "get_stamp_duty", "rate_for_year"]

/-- Constructor field names of `RentParams` (it has no extra attributes). -/
def rentFieldNames : List String :=
  ["weekly_rent", "rent_increase_rate", "renters_insurance_annual"]

/-- Constructor field names of `InvestmentParams` (no extra attributes). -/
def invFieldNames : List String :=
  ["return_rate", "dividend_yield", "franking_rate"]

/-- Constructor field names of `TaxParams`. -/
def taxFieldNames : List String := ["gross_income"]

/-- Properties of `TaxParams` that are not constructor fields. -/
def taxExtraAttrNames : List String := ["marginal_rate"]

/-- Assigns one keyword argument of the `BuyParams` constructor. Values of
the wrong shape for a field are outside the documented mapping shape and
leave the field unchanged. -/
def setBuyField (b : BuyParams) : String → PyVal → BuyParams
  | "purchase_price", .num q => { b with purchase_price := q }
  | "deposit_pct", .num q => { b with deposit_pct := q }
  | "mortgage_rate", .num q => { b with mortgage_rate := q }
  | "mortgage_term_years", .num q => { b with mortgage_term_years := q.floor.toNat }
  | "property_appreciation_rate", .num q =>
      { b with property_appreciation_rate := q }
  | "stamp_duty_override", .num q => { b with stamp_duty_override := some q }
  | "stamp_duty_override", .pynone => { b with stamp_duty_override := none }
  | "lmi", .num q => { b with lmi := q }
  | "state", .str s => { b with state := s }
  | "first_home_buyer", .pybool v => { b with first_home_buyer := v }
  | "new_build", .pybool v => { b with new_build := v }
  | "rate_schedule", .sched l => { b with rate_schedule := some l }
  | "rate_schedule", .pynone => { b with rate_schedule := none }
  | "council_rates_pct", .num q => { b with council_rates_pct := q }
  | "insurance_pct", .num q => { b with insurance_pct := q }
  | "maintenance_pct", .num q => { b with maintenance_pct := q }
  | "water_rates_annual", .num q => { b with water_rates_annual := q }
  | "strata_annual", .num q => { b with strata_annual := q }
  | "selling_agent_pct", .num q => { b with selling_agent_pct := q }
  | "selling_legal", .num q => { b with selling_legal := q }
  | _, _ => b

/-- Assigns one keyword argument of the `RentParams` constructor. -/
def setRentField (r : RentParams) : String → PyVal → RentParams
  | "weekly_rent", .num q => { r with weekly_rent := q }
  | "rent_increase_rate", .num q => { r with rent_increase_rate := q }
  | "renters_insurance_annual", .num q =>
      { r with renters_insurance_annual := q }
  | _, _ => r

/-- Assigns one keyword argument of the `InvestmentParams` constructor. -/
def setInvField (v : InvestmentParams) : String → PyVal → InvestmentParams
  | "return_rate", .num q => { v with return_rate := q }
  | "dividend_yield", .num q => { v with dividend_yield := q }
  | "franking_rate", .num q => { v with franking_rate := q }
  | _, _ => v

/-- Assigns one keyword argument of the `TaxParams` constructor. -/
def setTaxField (t : TaxParams) : String → PyVal → TaxParams
  | "gross_income", .num q => { t with gross_income := q }
  | _, _ => t

/-- Keyword-argument dataclass call `Cls(**data)`: raises `TypeError` when
any key is not a constructor field, otherwise fills the named fields and
defaults the rest. -/
def dataclassCall {α : Type} (fields : List String)
    (set : α → String → PyVal → α) (dflt : α)
    (data : List (String × PyVal)) : Except String α :=
  if data.all (fun e => fields.contains e.1) then
    .ok (data.foldl (fun acc e => set acc e.1 e.2) dflt)
  else .error "TypeError: unexpected keyword argument"

/-- Top-level scenario field assignment for `ScenarioParams(**top)`. -/
def setScenTopField (p : ScenarioParams) : String → PyVal → ScenarioParams
  | "inflation_rate", .num q => { p with inflation_rate := q }
  | "time_horizon_years", .num q => { p with time_horizon_years := q.floor.toNat }
  | "existing_savings", .num q => { p with existing_savings := q }
  | _, _ => p

/-- Embeds `dict_to_params` from `config.py`: sub-mappings are filtered by
`hasattr(Cls, k)` and then passed as keyword arguments; top-level keys are
filtered against the three scenario field names. -/
def dict_to_params (data : List (String × PyVal)) :
    Except String ScenarioParams :=
  let buy_data := subDict data "buy"
  let rent_data := subDict data "rent"
  let inv_data := subDict data "investment"
  let tax_data := subDict data "tax"
  let buyAttrs := buyFieldNames ++ buyExtraAttrNames
  let taxAttrs := taxFieldNames ++ taxExtraAttrNames
  do
    let buy ← dataclassCall buyFieldNames setBuyField {}
      (buy_data.filter (fun e => buyAttrs.contains e.1))
    let rent ← dataclassCall rentFieldNames setRentField {}
      (rent_data.filter (fun e => rentFieldNames.contains e.1))
    let inv ← dataclassCall invFieldNames setInvField {}
      (inv_data.filter (fun e => invFieldNames.contains e.1))
    let tax ← dataclassCall taxFieldNames setTaxField {}
      (tax_data.filter (fun e => taxAttrs.contains e.1))
    let top := data.filter (fun e =>
      ["inflation_rate", "time_horizon_years", "existing_savings"].contains e.1)
    .ok (top.foldl (fun acc e => setScenTopField acc e.1 e.2)
      { buy := buy, rent := rent, investment := inv, tax := tax })

/-! ### Output helpers (`src/housing/output.py`) -/

/-- Loop body of `crossover_year`: scans consecutive snapshot pairs. -/
def crossoverLoop : YearSnapshot → List YearSnapshot → Option ℕ
  | _, [] => none
  | prev, curr :: rest =>
      if prev.net_worth_difference ≤ 0 ∧ curr.net_worth_difference > 0 then
        some curr.year
      else crossoverLoop curr rest

/-- Embeds `crossover_year` from `output.py`. -/
def crossover_year : List YearSnapshot → Option ℕ
  | [] => none
  | s :: rest => crossoverLoop s rest

/-! ### Sensitivity sweep (`src/housing/sensitivity.py`)

Attribute access is embedded for the parameter tree of `ScenarioParams`:
`getattr` succeeds on declared fields, properties and methods and raises
`AttributeError` otherwise; `setattr` on a plain dataclass silently creates
a new instance attribute for names that are not class attributes (the
attribute is invisible to `simulate`, so the model leaves the parameters
unchanged), and raises `AttributeError` for read-only properties. Sweep
values are floats; assignments that put a float into a non-float field
(state, flags, schedule, term, a method name, or a whole sub-object) are
outside the modelled value space — Python stores the value and the
simulation then fails on it in a type-dependent way — and the embedding
leaves the field unchanged; the theorems below never instantiate them. -/

/-- Objects reachable by one `getattr` from `ScenarioParams`: the four
sub-parameter objects, or a non-traversable leaf value. -/
inductive SubObj where
  | buyO (b : BuyParams)
  | rentO (r : RentParams)
  | invO (v : InvestmentParams)
  | taxO (t : TaxParams)
  | leafO
  deriving Repr

/-- Python `getattr` on a `ScenarioParams` object. -/
def scenGetattr (p : ScenarioParams) : String → Option SubObj
  | "buy" => some (.buyO p.buy)
  | "rent" => some (.rentO p.rent)
  | "investment" => some (.invO p.investment)
  | "tax" => some (.taxO p.tax)
  | "inflation_rate" => some .leafO
  | "time_horizon_years" => some .leafO
  | "existing_savings" => some .leafO
  | _ => none

/-- Python `getattr` name resolution on a sub-parameter object. -/
def subGetattrKnown : SubObj → String → Bool
  | .buyO _, k => (buyFieldNames ++ buyExtraAttrNames).contains k
  | .rentO _, k => rentFieldNames.contains k
  | .invO _, k => invFieldNames.contains k
  | .taxO _, k => (taxFieldNames ++ taxExtraAttrNames).contains k
  | .leafO, _ => false

/-- Python `setattr(scenario, k, float)` (single-component paths). -/
def scenSetattr (p : ScenarioParams) (k : String) (v : ℚ) :
    Except String ScenarioParams :=
  if k = "inflation_rate" then .ok { p with inflation_rate := v }
  else if k = "existing_savings" then .ok { p with existing_savings := v }
  else if k = "time_horizon_years" then
    .ok { p with time_horizon_years := v.floor.toNat }
  else .ok p

/-- Python `setattr(sub_object, k, float)` for the final path component,
reassembling the scenario. Read-only properties raise `AttributeError`;
unknown names are silently created as unused instance attributes. -/
def subSetattr (p : ScenarioParams) (sub : SubObj) (k : String) (v : ℚ) :
    Except String ScenarioParams :=
  match sub with
  | .buyO b =>
      if k = "deposit" ∨ k = "loan_amount" then
        .error "AttributeError: property has no setter"
      else if buyFieldNames.contains k then
        .ok { p with buy := setBuyField b k (.num v) }
      else .ok p
  | .rentO r =>
      if rentFieldNames.contains k then
        .ok { p with rent := setRentField r k (.num v) }
      else .ok p
  | .invO iv =>
      if invFieldNames.contains k then
        .ok { p with investment := setInvField iv k (.num v) }
      else .ok p
  | .taxO t =>
      if k = "marginal_rate" then
        .error "AttributeError: property has no setter"
      else if taxFieldNames.contains k then
        .ok { p with tax := setTaxField t k (.num v) }
      else .ok p
  | .leafO => .error "AttributeError: cannot set attribute on a leaf value"

/-- Character-level splitter underlying `path.split(".")`, with the
accumulated current component carried reversed. -/
def splitDotsAux : List Char → List Char → List String
  | [], acc => [⟨acc.reverse⟩]
  | c :: cs, acc =>
      if c = Char.ofNat 46 then ⟨acc.reverse⟩ :: splitDotsAux cs []
      else splitDotsAux cs (c :: acc)

/-- Python `path.split(".")` (`String.splitOn` exists but does not reduce
in proofs; this is the same function stated structurally over the character
list, `Char.ofNat 46` being the dot). -/
def splitDots (s : String) : List String := splitDotsAux s.data []

/-- Embeds `_set_nested_attr` from `sensitivity.py`: walks all path
components but the last with `getattr`, then assigns the last. The
parameter tree is two levels deep, so any path with three or more
components walks through a leaf and raises. -/
def setNestedAttr (p : ScenarioParams) (path : String) (v : ℚ) :
    Except String ScenarioParams :=
  match splitDots path with
  | [] => .ok p
  | [last] => scenSetattr p last v
  | first :: rest =>
      match scenGetattr p first with
      | none => .error "AttributeError: unknown attribute"
      | some sub =>
          match rest with
          | [last] => subSetattr p sub last v
          | _ => .error "AttributeError: unknown attribute"

/-- Embeds the `SweepResult` dataclass from `sensitivity.py`. -/
structure SweepResult where
  param_value : ℚ
  buy_nw_real : ℚ
  rent_nw_real : ℚ
  difference_real : ℚ
  buy_wins : Bool
  crossover : Option ℕ
  buy_liquidation : ℚ
  rent_liquidation : ℚ
  deriving Repr, DecidableEq, Inhabited

/-- One iteration of the `sweep` loop: deep-copy (value semantics), set the
swept field, simulate, and collect the result row. -/
def sweepOne (p : ScenarioParams) (path : String) (val : ℚ) :
    Except String SweepResult := do
  let q ← setNestedAttr p path val
  let sd ← q.buy.get_stamp_duty
  let snapshots := simulateCore q sd
  let final := snapshots.getLastD default
  let xover := crossover_year snapshots
  let liquidation := net_worth_at_sale final q
  pure { param_value := val
         buy_nw_real := final.buy_net_worth_real
         rent_nw_real := final.rent_net_worth_real
         difference_real := final.net_worth_difference_real
         buy_wins := final.net_worth_difference_real > 0
         crossover := xover
         buy_liquidation := liquidation.buy_net_worth_after_sale_real
         rent_liquidation := liquidation.rent_net_worth_after_tax_real }

/-- Embeds `sweep` from `sensitivity.py`: one result per value, in order,
propagating the first exception raised inside the loop. -/
def sweep (p : ScenarioParams) (param_path : String) (values : List ℚ) :
    Except String (List SweepResult) :=
  values.mapM (sweepOne p param_path)

/-! ### Verification helpers and concrete scenarios -/

/-- Boolean success test for `Except` results. -/
def exceptOk {ε α : Type} : Except ε α → Bool
  | .ok _ => true
  | .error _ => false

/-- Uncapped monthly balance recurrence underlying
`mortgage_balance_after_year`: the balance after `k` months if the
principal cap and early stop never fire. -/
def uncappedBal (annual_rate monthly_payment balance : ℚ) : ℕ → ℚ
  | 0 => balance
  | k + 1 =>
      uncappedBal annual_rate monthly_payment balance k
        * (1 + annual_rate / 12) - monthly_payment

/-- Holds when no simulation year repays the loan strictly before its 12th
month: whenever the balance is live at the start of a year, the uncapped
end-of-year balance is still non-negative. Under this condition the monthly
loop of the deterministic engine agrees exactly with the closed-form
annuity update of the Monte Carlo engine. -/
def noMidYearPayoff (p : ScenarioParams) (sd : ℚ) : Bool :=
  (List.range p.time_horizon_years).all fun y =>
    let s := detStateAt p sd y
    decide (¬ s.mortgage_bal > 0) ||
      decide (0 ≤ uncappedBal s.current_rate s.monthly_pmt s.mortgage_bal 12)

/-- Scenario with a first home owner grant: first home buyer purchasing a
new build in NSW at the default price (all other fields default). The
deterministic engine ignores the grant; the Monte Carlo engine subtracts it
from upfront costs. -/
def c1GrantParams : ScenarioParams :=
  { buy := { first_home_buyer := true, new_build := true } }

/-- Small zero-volatility witness scenario for the amended Monte Carlo
equivalence: 1-year horizon, 12% rate, 1-year term, overridden stamp duty,
defaults elsewhere (all base rates inside the clip bounds, no grant, no
franking, no rate schedule). -/
def c1WitnessParams : ScenarioParams :=
  { buy := { purchase_price := 100, deposit_pct := 1/5, mortgage_rate := 12/100,
             mortgage_term_years := 1, stamp_duty_override := some 0 },
    time_horizon_years := 1 }

/-- Underwater snapshot for the liquidation claim: sale proceeds 100,
mortgage balance 200, no investments (every other field 0). -/
def c2Snapshot : YearSnapshot :=
  { year := 1, property_value := 100, mortgage_balance := 200,
    mortgage_rate_used := 0, buy_housing_costs := 0,
    buy_cumulative_costs := 0, buy_equity := 0, buy_investments := 0,
    buy_contributions := 0, buy_net_worth := 0, buy_net_worth_real := 0,
    annual_rent := 0, rent_housing_costs := 0, rent_cumulative_costs := 0,
    rent_investments := 0, rent_contributions := 0, rent_net_worth := 0,
    rent_net_worth_real := 0, net_worth_difference := 0,
    net_worth_difference_real := 0 }

/-- Parameters for the underwater liquidation evaluation: no selling costs,
zero-income tax rate keeps CGT away from the property-equity question. -/
def c2Params : ScenarioParams :=
  { buy := { selling_agent_pct := 0, selling_legal := 0 },
    tax := { gross_income := 0 } }

/-- Snapshot for the selling-legal-cost evaluation: year 1, property 100,
no mortgage, no investments (every other field 0). -/
def c2LegalSnapshot : YearSnapshot :=
  { year := 1, property_value := 100, mortgage_balance := 0,
    mortgage_rate_used := 0, buy_housing_costs := 0,
    buy_cumulative_costs := 0, buy_equity := 0, buy_investments := 0,
    buy_contributions := 0, buy_net_worth := 0, buy_net_worth_real := 0,
    annual_rent := 0, rent_housing_costs := 0, rent_cumulative_costs := 0,
    rent_investments := 0, rent_contributions := 0, rent_net_worth := 0,
    rent_net_worth_real := 0, net_worth_difference := 0,
    net_worth_difference_real := 0 }

/-- Parameters with a nonzero legal cost and 100% inflation, so an inflated
legal cost at year 1 would be 20, not the flat 10 the code subtracts. -/
def c2LegalParams : ScenarioParams :=
  { buy := { selling_agent_pct := 0, selling_legal := 10 },
    tax := { gross_income := 0 }, inflation_rate := 1 }

/-- Small scenario for the snapshot-contract witness: 2-year horizon, zero
mortgage rate, overridden stamp duty. -/
def c5Params : ScenarioParams :=
  { buy := { purchase_price := 100, deposit_pct := 1/5, mortgage_rate := 0,
             mortgage_term_years := 2, stamp_duty_override := some 0 },
    time_horizon_years := 2 }

/-- Scenario whose year-1 net-worth difference is negative: the buy side
pays off a 100 mortgage and 50 of maintenance while rent is free, so the
rent side banks the 150 surplus against 100 of buy equity. Inflation is
100%, deflating the negative difference towards zero. -/
def c7Params : ScenarioParams :=
  { buy := { purchase_price := 100, deposit_pct := 0, mortgage_rate := 0,
             mortgage_term_years := 1, property_appreciation_rate := 0,
             stamp_duty_override := some 0, council_rates_pct := 0,
             insurance_pct := 0, maintenance_pct := 1/2,
             water_rates_annual := 0 },
    rent := { weekly_rent := 0, rent_increase_rate := 0,
              renters_insurance_annual := 0 },
    investment := { return_rate := 0, dividend_yield := 0 },
    tax := { gross_income := 0 },
    inflation_rate := 1, time_horizon_years := 1, existing_savings := 0 }

/-- Variant of the negative-difference scenario with positive starting
savings, giving a positive year-1 rent net worth for the real-versus-
nominal witness. -/
def c7WitnessParams : ScenarioParams :=
  { buy := { purchase_price := 100, deposit_pct := 0, mortgage_rate := 0,
             mortgage_term_years := 1, property_appreciation_rate := 0,
             stamp_duty_override := some 0, council_rates_pct := 0,
             insurance_pct := 0, maintenance_pct := 1/2,
             water_rates_annual := 0 },
    rent := { weekly_rent := 0, rent_increase_rate := 0,
              renters_insurance_annual := 0 },
    investment := { return_rate := 0, dividend_yield := 0 },
    tax := { gross_income := 0 },
    inflation_rate := 1, time_horizon_years := 1, existing_savings := 10 }

/-- Simulation-friendly scenario for the sweep theorems: zero-year horizon
(only the year-0 snapshot is built), zero rate, overridden stamp duty. -/
def c9Params : ScenarioParams :=
  { buy := { purchase_price := 100, deposit_pct := 1/5, mortgage_rate := 0,
             mortgage_term_years := 1, stamp_duty_override := some 0,
             council_rates_pct := 0, insurance_pct := 0, maintenance_pct := 0,
             water_rates_annual := 0 },
    rent := { weekly_rent := 1, rent_increase_rate := 0,
              renters_insurance_annual := 0 },
    investment := { return_rate := 0, dividend_yield := 0 },
    tax := { gross_income := 0 },
    inflation_rate := 0, time_horizon_years := 0, existing_savings := 50 }

/-- True when the mapping contains a key that passes the `hasattr` filter
(`attrs`) but is not a constructor field (`fields`): exactly the keys on
which the keyword-argument call raises `TypeError`. -/
def hasBadKeys (fields attrs : List String) (d : List (String × PyVal)) :
    Bool :=
  (d.filter (fun e => attrs.contains e.1)).any (fun e => ! fields.contains e.1)

/-- True when no sub-mapping of the config contains a property or method
name, i.e. exactly when `dict_to_params` succeeds. -/
def dictOkKeys (data : List (String × PyVal)) : Bool :=
  !(hasBadKeys buyFieldNames (buyFieldNames ++ buyExtraAttrNames)
      (subDict data "buy")
    || hasBadKeys rentFieldNames rentFieldNames (subDict data "rent")
    || hasBadKeys invFieldNames invFieldNames (subDict data "investment")
    || hasBadKeys taxFieldNames (taxFieldNames ++ taxExtraAttrNames)
      (subDict data "tax"))

/-- Small scenario for the Monte Carlo boundedness witness. -/
def c4Params : ScenarioParams :=
  { buy := { purchase_price := 100, deposit_pct := 1/5, mortgage_rate := 12/100,
             mortgage_term_years := 1, stamp_duty_override := some 0 },
    time_horizon_years := 2 }

/-! ### Amortization lemmas -/

/-- The monthly loop always returns a non-negative balance equal to the
starting balance minus the principal it accumulated. -/
theorem amortizeLoop_balance (rate pmt : ℚ) :
    ∀ (m : ℕ) (b tp ti : ℚ), 0 ≤ b →
      (amortizeLoop rate pmt m (b, tp, ti)).1
          = b - ((amortizeLoop rate pmt m (b, tp, ti)).2.1 - tp) ∧
        0 ≤ (amortizeLoop rate pmt m (b, tp, ti)).1 := by
  intro m
  induction m with
  | zero => intro b tp ti hb; simpa [amortizeLoop] using hb
  | succ m ih =>
      intro b tp ti hb
      rw [amortizeLoop]
      simp only [amortizeMonth]
      split_ifs with hcap hstop hstop
      · refine ⟨?_, ?_⟩ <;> dsimp only <;> linarith
      · exact absurd (by linarith : b - b ≤ 0) hstop
      · refine ⟨?_, ?_⟩ <;> dsimp only
        · ring
        · linarith [not_lt.mp hcap]
      · obtain ⟨h1, h2⟩ := ih (b - (pmt - b * (rate / 12)))
          (tp + (pmt - b * (rate / 12))) (ti + b * (rate / 12))
          (by linarith [not_lt.mp hcap])
        exact ⟨by rw [h1]; ring, h2⟩

/-- Front-shift identity for the uncapped balance recurrence. -/
theorem uncappedBal_shift (rate pmt b : ℚ) :
    ∀ m, uncappedBal rate pmt b (m + 1)
      = uncappedBal rate pmt (b * (1 + rate / 12) - pmt) m := by
  intro m
  induction m with
  | zero => simp [uncappedBal]
  | succ m ih => rw [uncappedBal, ih, uncappedBal]

/-- Once the uncapped balance is non-positive it goes strictly negative and
stays there (for non-negative rate and positive payment). -/
theorem uncappedBal_neg (rate pmt : ℚ) (hr : 0 ≤ rate) (hp : 0 < pmt) :
    ∀ (m : ℕ) (b : ℚ), b ≤ 0 → uncappedBal rate pmt b (m + 1) < 0 := by
  intro m
  induction m with
  | zero =>
      intro b hb
      have : b * (1 + rate / 12) ≤ 0 :=
        mul_nonpos_of_nonpos_of_nonneg hb (by linarith)
      simp only [uncappedBal]
      linarith
  | succ m ih =>
      intro b hb
      have h := ih b hb
      have : uncappedBal rate pmt b (m + 1) * (1 + rate / 12) ≤ 0 :=
        mul_nonpos_of_nonpos_of_nonneg (le_of_lt h) (by linarith)
      rw [uncappedBal]
      linarith

/-- When the uncapped end balance stays non-negative, the monthly loop runs
all `m` months, never caps, and agrees with the uncapped recurrence; its
totals satisfy the closed-form principal and interest identities. -/
theorem amortizeLoop_no_payoff (rate pmt : ℚ) (hr : 0 ≤ rate) (hp : 0 < pmt) :
    ∀ (m : ℕ) (b tp ti : ℚ), 0 < b → 0 ≤ uncappedBal rate pmt b m →
      amortizeLoop rate pmt m (b, tp, ti)
        = (uncappedBal rate pmt b m,
           tp + (b - uncappedBal rate pmt b m),
           ti + (m * pmt - (b - uncappedBal rate pmt b m))) := by
  intro m
  induction m with
  | zero =>
      intro b tp ti hb hu
      simp [amortizeLoop, uncappedBal]
  | succ m ih =>
      intro b tp ti hb hu
      have hshift := uncappedBal_shift rate pmt b m
      have hnext : 0 ≤ b * (1 + rate / 12) - pmt := by
        by_contra hneg
        push_neg at hneg
        rcases Nat.eq_zero_or_pos m with hm | hm
        · subst hm
          simp only [uncappedBal] at hu
          linarith
        · obtain ⟨k, rfl⟩ := Nat.exists_eq_add_of_le hm
          have := uncappedBal_neg rate pmt hr hp k
            (b * (1 + rate / 12) - pmt) (le_of_lt hneg)
          rw [hshift, Nat.add_comm 1 k] at hu
          linarith
      have hcap : ¬ (pmt - b * (rate / 12) > b) := by
        intro hcontra
        nlinarith
      have huval : uncappedBal rate pmt b (m + 1)
          = uncappedBal rate pmt (b * (1 + rate / 12) - pmt) m := hshift
      rw [amortizeLoop]
      simp only [amortizeMonth]
      rw [if_neg hcap, if_neg hcap]
      rcases eq_or_lt_of_le hnext with hz | hpos
      · have hstop : b - (pmt - b * (rate / 12)) ≤ 0 := by nlinarith
        rw [if_pos (by simpa using hstop)]
        have hm0 : m = 0 := by
          by_contra hm
          obtain ⟨k, rfl⟩ := Nat.exists_eq_add_of_le (Nat.pos_of_ne_zero hm)
          have := uncappedBal_neg rate pmt hr hp k
            (b * (1 + rate / 12) - pmt) (le_of_eq hz.symm)
          rw [hshift, Nat.add_comm 1 k] at hu
          linarith
        subst hm0
        have hval : uncappedBal rate pmt b 1 = b * (1 + rate / 12) - pmt := by
          show uncappedBal rate pmt b 0 * (1 + rate / 12) - pmt = _
          show b * (1 + rate / 12) - pmt = _
          rfl
        rw [hval, ← hz]
        refine congrArg₂ Prod.mk ?_ (congrArg₂ Prod.mk ?_ ?_)
        · dsimp only
          nlinarith
        · dsimp only
          nlinarith
        · dsimp only
          push_cast
          nlinarith
      · have hstop : ¬ (b - (pmt - b * (rate / 12)) ≤ 0) := by nlinarith
        rw [if_neg (by simpa using hstop)]
        rw [show b - (pmt - b * (rate / 12)) = b * (1 + rate / 12) - pmt from by ring]
        rw [ih (b * (1 + rate / 12) - pmt) (tp + (pmt - b * (rate / 12)))
          (ti + b * (rate / 12)) hpos (by rw [← hshift]; exact hu)]
        rw [← hshift]
        refine congrArg₂ Prod.mk rfl (congrArg₂ Prod.mk ?_ ?_)
        · ring
        · push_cast
          ring

/-! ### Claim C3: amortization identity -/

/-- C3 counterexample: the claim asserts the identity for every
non-negative balance, rate and payment, but when the payment repays the
loan early the loop stops: with balance 100, rate 0 and payment 100 the
loan is repaid in the first month, principal + interest is 100, not
`payment × 12 = 1200`, missing it by 1100. -/
theorem amortization_identity_cex :
    (0 : ℚ) ≤ 100 ∧
    (mortgage_balance_after_year 100 0 100).2.1
        + (mortgage_balance_after_year 100 0 100).2.2 = 100 ∧
    ¬ ((100 : ℚ) = 100 * 12) ∧
    (100 : ℚ) * 12 - 100 = 1100 := by
  refine ⟨by norm_num, ?_, by norm_num, by norm_num⟩
  norm_num [mortgage_balance_after_year, amortizeLoop, amortizeMonth]

/-- C3 amended: for every non-negative balance, non-negative rate and
positive payment, `new_balance = balance - principal_paid` holds
unconditionally, and `principal_paid + interest_paid = payment * 12`
(exactly, in the real-arithmetic model) provided the year does not repay
the loan early, i.e. the uncapped end-of-year balance is non-negative. -/
theorem amortization_identity (balance rate pmt : ℚ) (hb : 0 ≤ balance)
    (hr : 0 ≤ rate) (hp : 0 < pmt) :
    (mortgage_balance_after_year balance rate pmt).1
        = balance - (mortgage_balance_after_year balance rate pmt).2.1 ∧
    (0 ≤ uncappedBal rate pmt balance 12 →
      (mortgage_balance_after_year balance rate pmt).2.1
          + (mortgage_balance_after_year balance rate pmt).2.2 = pmt * 12) := by
  constructor
  · obtain ⟨h1, h2⟩ := amortizeLoop_balance rate pmt 12 balance 0 0 hb
    show max (amortizeLoop rate pmt 12 (balance, 0, 0)).1 0
        = balance - (amortizeLoop rate pmt 12 (balance, 0, 0)).2.1
    rw [max_eq_left h2, h1]
    ring
  · intro hu
    have hbpos : 0 < balance := by
      rcases eq_or_lt_of_le hb with hz | hpos
      · exfalso
        have := uncappedBal_neg rate pmt hr hp 11 balance (le_of_eq hz.symm)
        linarith
      · exact hpos
    have := amortizeLoop_no_payoff rate pmt hr hp 12 balance 0 0 hbpos hu
    show (amortizeLoop rate pmt 12 (balance, 0, 0)).2.1
        + (amortizeLoop rate pmt 12 (balance, 0, 0)).2.2 = pmt * 12
    rw [this]
    dsimp only
    push_cast
    ring

/-- C3 witness: balance 1200, rate 0, payment 10 — the uncapped year-end
balance is 1080, so the amended identity applies and gives totals 120. -/
theorem amortization_identity_witness :
    (0 : ℚ) ≤ 1200 ∧ (0 : ℚ) ≤ 0 ∧ (0 : ℚ) < 10 ∧
    (mortgage_balance_after_year 1200 0 10).1
        = 1200 - (mortgage_balance_after_year 1200 0 10).2.1 ∧
    (mortgage_balance_after_year 1200 0 10).2.1
        + (mortgage_balance_after_year 1200 0 10).2.2 = 10 * 12 := by
  obtain ⟨h1, h2⟩ :=
    amortization_identity 1200 0 10 (by norm_num) (by norm_num) (by norm_num)
  exact ⟨by norm_num, by norm_num, by norm_num, h1, h2 (by norm_num [uncappedBal])⟩

/-! ### Claim C2: liquidation value -/

/-- C2 evaluation: `net_worth_at_sale` clamps negative property equity at 0
instead of letting the shortfall reduce net worth, and subtracts the flat
`selling_legal` instead of inflating it to the snapshot year. On an
underwater snapshot (proceeds 100, mortgage 200, no investments) the code
returns 0 where the claimed full-recourse value is -100; on a year-1
snapshot with legal cost 10 and 100% inflation the code returns 90 (flat
legal) where the claimed inflated-legal value is 80. -/
theorem net_worth_at_sale_evaluation :
    (net_worth_at_sale c2Snapshot c2Params).buy_net_worth_after_sale = 0 ∧
    c2Snapshot.property_value * (1 - c2Params.buy.selling_agent_pct)
        - c2Params.buy.selling_legal - c2Snapshot.mortgage_balance
        + c2Snapshot.buy_investments = -100 ∧
    (net_worth_at_sale c2LegalSnapshot c2LegalParams).buy_net_worth_after_sale
        = 90 ∧
    c2LegalSnapshot.property_value
          * (1 - c2LegalParams.buy.selling_agent_pct)
        - c2LegalParams.buy.selling_legal
            * (1 + c2LegalParams.inflation_rate) ^ c2LegalSnapshot.year
        - c2LegalSnapshot.mortgage_balance = 80 := by
  refine ⟨?_, ?_, ?_, ?_⟩ <;>
    norm_num [net_worth_at_sale, calc_cgt, c2Snapshot, c2Params,
      c2LegalSnapshot, c2LegalParams, TaxParams.marginal_rate, marginal_rate,
      marginalRateLoop, INCOME_BRACKETS_2025, leThr, MEDICARE_LEVY]

/-! ### Claim C6: stamp duty dispatch -/

/-- C6 counterexample: the string "nsw" is not among the three supported
state strings, yet `calc_stamp_duty` does not fail on it — matching is
case-insensitive (`state.upper()`), so it returns the NSW calculator
result. -/
theorem calc_stamp_duty_lowercase_cex :
    ("nsw" ≠ "NSW" ∧ "nsw" ≠ "VIC" ∧ "nsw" ≠ "QLD") ∧
    calc_stamp_duty 800000 "nsw" false false
      = .ok (calc_nsw_stamp_duty 800000 false false) := by
  exact ⟨⟨by decide, by decide, by decide⟩, rfl⟩

/-- C6 amended: `calc_stamp_duty` upper-cases the state first; it returns
the matching state calculator result whenever the upper-cased state is one
of NSW, VIC, QLD, and fails with an error (a `ValueError` in the source)
exactly when it is none of the three — never silently defaulting. -/
theorem calc_stamp_duty_dispatch (price : ℚ) (st : String) (fhb nb : Bool) :
    (pyUpper st = "NSW" →
      calc_stamp_duty price st fhb nb = .ok (calc_nsw_stamp_duty price fhb nb)) ∧
    (pyUpper st = "VIC" →
      calc_stamp_duty price st fhb nb = .ok (calc_vic_stamp_duty price fhb nb)) ∧
    (pyUpper st = "QLD" →
      calc_stamp_duty price st fhb nb = .ok (calc_qld_stamp_duty price fhb nb)) ∧
    (pyUpper st ≠ "NSW" → pyUpper st ≠ "VIC" → pyUpper st ≠ "QLD" →
      calc_stamp_duty price st fhb nb = .error "ValueError: Unknown state") := by
  refine ⟨?_, ?_, ?_, ?_⟩
  · intro h
    simp [calc_stamp_duty, h]
  · intro h
    simp [calc_stamp_duty, h]
  · intro h
    simp [calc_stamp_duty, h]
  · intro h1 h2 h3
    simp only [calc_stamp_duty]
    rw [if_neg h1, if_neg h2, if_neg h3]

/-- C6 witness: "WA" fails with the error; lower-case "vic" dispatches to
the VIC calculator. -/
theorem calc_stamp_duty_dispatch_witness :
    calc_stamp_duty 800000 "WA" false false
        = .error "ValueError: Unknown state" ∧
    calc_stamp_duty 800000 "vic" false false
        = .ok (calc_vic_stamp_duty 800000 false false) :=
  ⟨(calc_stamp_duty_dispatch 800000 "WA" false false).2.2.2
      (by decide) (by decide) (by decide),
   (calc_stamp_duty_dispatch 800000 "vic" false false).2.1 (by decide)⟩

/-! ### Claim C10: marginal rate floor -/

/-- C10: for every non-negative income, `marginal_rate` returns the bracket
rate of the income band plus the fixed 2% Medicare levy, hence is always at
least 2%; incomes at or below the 18200 threshold get exactly 2%, not 0,
and consequently `_grow_investments` levies a strictly positive dividend
tax even at zero income (for a positive portfolio, return and yield). -/
theorem marginal_rate_floor (g : ℚ) (hg : 0 ≤ g) :
    MEDICARE_LEVY ≤ marginal_rate g ∧
    (g ≤ 18200 → marginal_rate g = 0 + MEDICARE_LEVY) ∧
    (18200 < g → g ≤ 45000 → marginal_rate g = 16/100 + MEDICARE_LEVY) ∧
    (45000 < g → g ≤ 135000 → marginal_rate g = 30/100 + MEDICARE_LEVY) ∧
    (135000 < g → g ≤ 190000 → marginal_rate g = 37/100 + MEDICARE_LEVY) ∧
    (190000 < g → marginal_rate g = 45/100 + MEDICARE_LEVY) ∧
    (∀ portfolio ret divy : ℚ, 0 < portfolio → 0 < ret → 0 < divy →
      grow_investments portfolio ret divy (marginal_rate 0)
        < portfolio + portfolio * ret) := by
  have e : marginal_rate g
      = (if g ≤ 18200 then 0 else if g ≤ 45000 then 16/100
         else if g ≤ 135000 then 30/100 else if g ≤ 190000 then 37/100
         else (45/100 : ℚ)) + MEDICARE_LEVY := by
    simp only [marginal_rate, INCOME_BRACKETS_2025, marginalRateLoop, leThr,
      decide_eq_true_eq, if_true]
  refine ⟨?_, ?_, ?_, ?_, ?_, ?_, ?_⟩
  · rw [e]
    split_ifs <;> norm_num [MEDICARE_LEVY]
  · intro h
    rw [e, if_pos h]
  · intro h1 h2
    rw [e, if_neg (by linarith), if_pos h2]
  · intro h1 h2
    rw [e, if_neg (by linarith), if_neg (by linarith), if_pos h2]
  · intro h1 h2
    rw [e, if_neg (by linarith), if_neg (by linarith), if_neg (by linarith),
      if_pos h2]
  · intro h1
    rw [e, if_neg (by linarith), if_neg (by linarith), if_neg (by linarith),
      if_neg (by linarith)]
  · intro portfolio ret divy hP hret hdivy
    have hm : marginal_rate 0 = 1/50 := by
      norm_num [marginal_rate, marginalRateLoop, INCOME_BRACKETS_2025, leThr,
        MEDICARE_LEVY]
    rw [grow_investments, hm, if_pos hret]
    have hpos : 0 < portfolio * ret * (divy / ret) * (1/50) := by positivity
    linarith

/-- C10 witness: a 200000 income lands in the top bracket at 45% + 2%, and
a zero-income investor still pays dividend tax on a positive portfolio. -/
theorem marginal_rate_floor_witness :
    marginal_rate 200000 = 45/100 + MEDICARE_LEVY ∧
    grow_investments 100 (1/10) (1/50) (marginal_rate 0)
      < 100 + 100 * (1/10) :=
  ⟨(marginal_rate_floor 200000 (by norm_num)).2.2.2.2.2.1 (by norm_num),
   (marginal_rate_floor 200000 (by norm_num)).2.2.2.2.2.2 100 (1/10) (1/50)
     (by norm_num) (by norm_num) (by norm_num)⟩

/-! ### Snapshot structure lemmas -/

/-- Field relations between a year-loop snapshot and the loop state it was
built from; all hold by definitional unfolding of `detStep`. -/
theorem detStep_fields (p : ScenarioParams) (y : ℕ) (s : DetState) :
    (detStep p y s).2.year = y ∧
    (detStep p y s).2.property_value = (detStep p y s).1.property_value ∧
    (detStep p y s).2.mortgage_balance = (detStep p y s).1.mortgage_bal ∧
    (detStep p y s).2.buy_investments = (detStep p y s).1.buy_investments ∧
    (detStep p y s).2.rent_investments = (detStep p y s).1.rent_investments ∧
    (detStep p y s).2.buy_net_worth
      = (detStep p y s).1.property_value - (detStep p y s).1.mortgage_bal
        + (detStep p y s).1.buy_investments ∧
    (detStep p y s).2.rent_net_worth = (detStep p y s).1.rent_investments ∧
    (detStep p y s).2.buy_net_worth_real
      = (detStep p y s).2.buy_net_worth / (1 + p.inflation_rate) ^ y ∧
    (detStep p y s).2.rent_net_worth_real
      = (detStep p y s).2.rent_net_worth / (1 + p.inflation_rate) ^ y ∧
    (detStep p y s).2.net_worth_difference
      = (detStep p y s).2.buy_net_worth - (detStep p y s).2.rent_net_worth ∧
    (detStep p y s).2.net_worth_difference_real
      = (detStep p y s).2.buy_net_worth_real
        - (detStep p y s).2.rent_net_worth_real :=
  ⟨rfl, rfl, rfl, rfl, rfl, rfl, rfl, rfl, rfl, rfl, rfl⟩

/-- Length of the snapshot list produced by the engine core. -/
theorem simulateCore_length (p : ScenarioParams) (sd : ℚ) :
    (simulateCore p sd).length = p.time_horizon_years + 1 := by
  simp [simulateCore]

/-- Indexing the snapshot list at a loop year retrieves that year-loop
snapshot. -/
theorem simulateCore_getD_succ (p : ScenarioParams) (sd : ℚ) (i : ℕ)
    (hi : i < p.time_horizon_years) :
    (simulateCore p sd).getD (i + 1) default
      = (detStep p (i + 1) (detStateAt p sd i)).2 := by
  simp only [simulateCore, List.getD_cons_succ]
  rw [List.getD_eq_getElem?_getD, List.getElem?_map, List.getElem?_range hi]
  rfl

/-! ### Claim C5: simulate snapshot contract -/

/-- C5: `simulate` computes the stamp duty and, when that succeeds, returns
exactly `time_horizon_years + 1` snapshots ordered by year (`snapshots[i]`
has year `i` for every `i ≤ horizon`), with year-0 property value equal to
the purchase price and year-0 mortgage balance equal to the loan amount,
which is the purchase price minus the deposit. -/
theorem simulate_snapshot_contract (p : ScenarioParams) (sd : ℚ) (i : ℕ)
    (hi : i ≤ p.time_horizon_years) :
    simulate p = (p.buy.get_stamp_duty).map (fun d => simulateCore p d) ∧
    (simulateCore p sd).length = p.time_horizon_years + 1 ∧
    ((simulateCore p sd).getD i default).year = i ∧
    ((simulateCore p sd).getD 0 default).year = 0 ∧
    ((simulateCore p sd).getD 0 default).property_value
      = p.buy.purchase_price ∧
    ((simulateCore p sd).getD 0 default).mortgage_balance
      = p.buy.loan_amount ∧
    p.buy.loan_amount
      = p.buy.purchase_price - p.buy.purchase_price * p.buy.deposit_pct := by
  refine ⟨rfl, simulateCore_length p sd, ?_, rfl, rfl, rfl, rfl⟩
  match i with
  | 0 => rfl
  | j + 1 =>
      rw [simulateCore_getD_succ p sd j (by omega)]
      exact (detStep_fields p (j + 1) (detStateAt p sd j)).1

/-- C5 witness: the contract at a concrete 2-year scenario, instantiated at
snapshot index 1. -/
theorem simulate_snapshot_contract_witness :
    (1 ≤ c5Params.time_horizon_years) ∧
    (simulateCore c5Params 0).length = c5Params.time_horizon_years + 1 ∧
    ((simulateCore c5Params 0).getD 1 default).year = 1 ∧
    ((simulateCore c5Params 0).getD 0 default).property_value
      = c5Params.buy.purchase_price :=
  ⟨by norm_num [c5Params],
   (simulate_snapshot_contract c5Params 0 1 (by norm_num [c5Params])).2.1,
   (simulate_snapshot_contract c5Params 0 1 (by norm_num [c5Params])).2.2.1,
   (simulate_snapshot_contract c5Params 0 1 (by norm_num [c5Params])).2.2.2.2.1⟩

/-! ### Claim C7: real versus nominal -/

/-- C7 counterexample: real values are nominal values divided by the
cumulative inflation factor, so they are strictly less only when the
nominal value is positive. In a scenario whose year-1 net worth difference
is -50 with 100% inflation, the real difference is -25, strictly greater
than the nominal one, contradicting the claim for the
`net_worth_difference_real` field. -/
theorem real_exceeds_nominal_cex :
    0 < c7Params.inflation_rate ∧
    simulate c7Params = .ok (simulateCore c7Params 0) ∧
    ((simulateCore c7Params 0).getD 1 default).net_worth_difference = -50 ∧
    ((simulateCore c7Params 0).getD 1 default).net_worth_difference_real
      = -25 ∧
    ¬ (((simulateCore c7Params 0).getD 1 default).net_worth_difference_real
        < ((simulateCore c7Params 0).getD 1 default).net_worth_difference) := by
  have e1 : (simulateCore c7Params 0).getD 1 default
      = (detStep c7Params 1 (detInit c7Params 0)).2 :=
    simulateCore_getD_succ c7Params 0 0 (by norm_num [c7Params])
  have h0 : detInit c7Params 0 = ⟨100, 100, 0, 100/12, 0, 0, 0, 0, 0, 0, 0⟩ := by
    norm_num [detInit, detUpfront, monthly_repayment, BuyParams.deposit,
      BuyParams.loan_amount, BuyParams.rate_for_year, c7Params]
  refine ⟨by norm_num [c7Params], rfl, ?_, ?_, ?_⟩ <;> rw [e1, h0] <;>
    norm_num [detStep, mortgage_balance_after_year, amortizeLoop,
      amortizeMonth, grow_investments, BuyParams.rate_for_year,
      TaxParams.marginal_rate, marginal_rate, marginalRateLoop,
      INCOME_BRACKETS_2025, leThr, MEDICARE_LEVY, c7Params]

/-- C7 amended: for every year-loop snapshot (year at least 1) under a
positive inflation rate, each real-valued net worth field is strictly less
than its nominal counterpart whenever that nominal value is positive (the
real value equals the nominal one divided by `(1+inflation)^year`, so for
non-positive nominal values the strict inequality reverses or degenerates). -/
theorem real_lt_nominal (p : ScenarioParams) (sd : ℚ) (i : ℕ) (h1 : 1 ≤ i)
    (h2 : i ≤ p.time_horizon_years) (hinf : 0 < p.inflation_rate) :
    (0 < ((simulateCore p sd).getD i default).buy_net_worth →
      ((simulateCore p sd).getD i default).buy_net_worth_real
        < ((simulateCore p sd).getD i default).buy_net_worth) ∧
    (0 < ((simulateCore p sd).getD i default).rent_net_worth →
      ((simulateCore p sd).getD i default).rent_net_worth_real
        < ((simulateCore p sd).getD i default).rent_net_worth) ∧
    (0 < ((simulateCore p sd).getD i default).net_worth_difference →
      ((simulateCore p sd).getD i default).net_worth_difference_real
        < ((simulateCore p sd).getD i default).net_worth_difference) := by
  obtain ⟨j, rfl⟩ := Nat.exists_eq_add_of_le h1
  rw [Nat.add_comm 1 j] at h2 ⊢
  rw [simulateCore_getD_succ p sd j (by omega)]
  obtain ⟨-, -, -, -, -, -, -, hbr, hrr, hd, hdr⟩ :=
    detStep_fields p (j + 1) (detStateAt p sd j)
  have hpow : 1 < (1 + p.inflation_rate) ^ (j + 1) :=
    one_lt_pow₀ (by linarith) (Nat.succ_ne_zero j)
  refine ⟨?_, ?_, ?_⟩
  · intro hpos
    rw [hbr]
    exact div_lt_self hpos hpow
  · intro hpos
    rw [hrr]
    exact div_lt_self hpos hpow
  · intro hpos
    rw [hdr, hbr, hrr, div_sub_div_same, hd]
    exact div_lt_self hpos hpow

/-- C7 witness: the amended statement applied at year 1 of a small
scenario with 100% inflation whose rent net worth is 160, so the real rent
net worth (80) is strictly below the nominal one. -/
theorem real_lt_nominal_witness :
    0 < c7WitnessParams.inflation_rate ∧
    0 < ((simulateCore c7WitnessParams 0).getD 1 default).rent_net_worth ∧
    ((simulateCore c7WitnessParams 0).getD 1 default).rent_net_worth_real
      < ((simulateCore c7WitnessParams 0).getD 1 default).rent_net_worth := by
  have h := (real_lt_nominal c7WitnessParams 0 1 (by norm_num)
    (by norm_num [c7WitnessParams]) (by norm_num [c7WitnessParams])).2.1
  have e1 : (simulateCore c7WitnessParams 0).getD 1 default
      = (detStep c7WitnessParams 1 (detInit c7WitnessParams 0)).2 :=
    simulateCore_getD_succ c7WitnessParams 0 0 (by norm_num [c7WitnessParams])
  have h0 : detInit c7WitnessParams 0
      = ⟨100, 100, 0, 100/12, 10, 10, 0, 10, 10, 0, 0⟩ := by
    norm_num [detInit, detUpfront, monthly_repayment, BuyParams.deposit,
      BuyParams.loan_amount, BuyParams.rate_for_year, c7WitnessParams]
  have hpos :
      0 < ((simulateCore c7WitnessParams 0).getD 1 default).rent_net_worth := by
    rw [e1, h0]
    norm_num [detStep, mortgage_balance_after_year, amortizeLoop,
      amortizeMonth, grow_investments, BuyParams.rate_for_year,
      TaxParams.marginal_rate, marginal_rate, marginalRateLoop,
      INCOME_BRACKETS_2025, leThr, MEDICARE_LEVY, c7WitnessParams]
  exact ⟨by norm_num [c7WitnessParams], hpos, h hpos⟩

/-! ### Claim C8: config mapping -/

/-- C8 counterexample: "deposit" is not a constructor field of `BuyParams`
(it is a read-only property), yet `hasattr(BuyParams, "deposit")` holds, so
the key slips through the unknown-field filter and the constructor call
raises `TypeError` — `dict_to_params` does not always return without
raising. -/
theorem dict_to_params_raises_cex :
    buyFieldNames.contains "deposit" = false ∧
    buyExtraAttrNames.contains "deposit" = true ∧
    dict_to_params [("buy", .dict [("deposit", .num 5)])]
      = .error "TypeError: unexpected keyword argument" := by
  exact ⟨rfl, rfl, rfl⟩

/-- Success test for `dataclassCall`. -/
theorem dataclassCall_ok {α : Type} (fields : List String)
    (set : α → String → PyVal → α) (dflt : α) (d : List (String × PyVal)) :
    exceptOk (dataclassCall fields set dflt d)
      = d.all (fun e => fields.contains e.1) := by
  rw [dataclassCall]
  split_ifs with h
  · rw [h]
    rfl
  · rw [Bool.not_eq_true] at h
    rw [h]
    rfl

/-- Bad-key test as the negation of the keyword-argument success test. -/
theorem hasBadKeys_eq (fields attrs : List String)
    (d : List (String × PyVal)) :
    hasBadKeys fields attrs d
      = ! ((d.filter (fun e => attrs.contains e.1)).all
            (fun e => fields.contains e.1)) := by
  rw [hasBadKeys]
  cases hAll : (d.filter fun e => attrs.contains e.1).all
      (fun e => fields.contains e.1) with
  | true =>
      rw [List.all_eq_true] at hAll
      simp only [Bool.not_true]
      rw [List.any_eq_false]
      intro e he
      have h2 := hAll e he
      simp only [h2, Bool.not_true]
      simp
  | false =>
      rw [List.all_eq_false] at hAll
      obtain ⟨e, he, hne⟩ := hAll
      simp only [Bool.not_false]
      rw [List.any_eq_true]
      refine ⟨e, he, ?_⟩
      rw [Bool.not_eq_true] at hne
      simp only [hne, Bool.not_false]

/-- Prepending an entry with a different key leaves a sub-mapping lookup
unchanged. -/
theorem subDict_cons_ne (k : String) (v : PyVal)
    (data : List (String × PyVal)) (name : String) (h : k ≠ name) :
    subDict ((k, v) :: data) name = subDict data name := by
  simp [subDict, lookupKey, List.find?_cons, h]

/-- C8 amended: `dict_to_params` succeeds exactly when no sub-mapping key
names a non-field class attribute (a property or method such as "deposit",
which passes the `hasattr` filter and makes the constructor raise); keys
that are not class attributes at all are ignored — shown for top-level keys
and for `buy` sub-mapping keys — and the empty mapping yields every
documented default. -/
theorem dict_to_params_behavior (data : List (String × PyVal)) :
    (exceptOk (dict_to_params data) = dictOkKeys data) ∧
    (∀ (k : String) (v : PyVal),
      (["buy", "rent", "investment", "tax", "inflation_rate",
        "time_horizon_years", "existing_savings"].contains k) = false →
      dict_to_params ((k, v) :: data) = dict_to_params data) ∧
    (∀ (k : String) (v : PyVal) (bd : List (String × PyVal))
        (rest : List (String × PyVal)),
      ((buyFieldNames ++ buyExtraAttrNames).contains k) = false →
      dict_to_params (("buy", .dict ((k, v) :: bd)) :: rest)
        = dict_to_params (("buy", .dict bd) :: rest)) ∧
    dict_to_params []
      = .ok { buy := {}, rent := {}, investment := {}, tax := {} } := by
  refine ⟨?_, ?_, ?_, rfl⟩
  · rw [dictOkKeys]
    simp only [dict_to_params, bind, Except.bind, dataclassCall]
    rw [hasBadKeys_eq, hasBadKeys_eq, hasBadKeys_eq, hasBadKeys_eq]
    split_ifs with h1 h2 h3 h4 <;>
      simp_all only [Bool.not_eq_true, exceptOk, Bool.not_true,
        Bool.not_false, Bool.false_or, Bool.true_or, Bool.or_false,
        Bool.or_true]
  · intro k v hk
    have hkk : k ≠ "buy" ∧ k ≠ "rent" ∧ k ≠ "investment" ∧ k ≠ "tax" ∧
        k ≠ "inflation_rate" ∧ k ≠ "time_horizon_years" ∧
        k ≠ "existing_savings" := by simpa using hk
    obtain ⟨h1, h2, h3, h4, h5, h6, h7⟩ := hkk
    have hfil : ((k, v) :: data).filter (fun e =>
          (["inflation_rate", "time_horizon_years",
            "existing_savings"]).contains e.1)
        = data.filter (fun e =>
          (["inflation_rate", "time_horizon_years",
            "existing_savings"]).contains e.1) := by
      rw [List.filter_cons]
      simp [h5, h6, h7]
    simp only [dict_to_params]
    rw [subDict_cons_ne k v data "buy" h1, subDict_cons_ne k v data "rent" h2,
      subDict_cons_ne k v data "investment" h3,
      subDict_cons_ne k v data "tax" h4, hfil]
  · intro k v bd rest hk
    have hkk : k ∉ buyFieldNames ∧ k ∉ buyExtraAttrNames := by simpa using hk
    have hsub1 : subDict (("buy", PyVal.dict ((k, v) :: bd)) :: rest) "buy"
        = (k, v) :: bd := by
      simp [subDict, lookupKey, List.find?_cons]
    have hsub2 : subDict (("buy", PyVal.dict bd) :: rest) "buy" = bd := by
      simp [subDict, lookupKey, List.find?_cons]
    have hfil : ((k, v) :: bd).filter (fun e =>
          (buyFieldNames ++ buyExtraAttrNames).contains e.1)
        = bd.filter (fun e =>
          (buyFieldNames ++ buyExtraAttrNames).contains e.1) := by
      rw [List.filter_cons]
      simp [hkk.1, hkk.2]
    simp only [dict_to_params]
    rw [hsub1, hsub2, hfil,
      subDict_cons_ne "buy" (PyVal.dict ((k, v) :: bd)) rest "rent"
        (by decide),
      subDict_cons_ne "buy" (PyVal.dict bd) rest "rent" (by decide),
      subDict_cons_ne "buy" (PyVal.dict ((k, v) :: bd)) rest "investment"
        (by decide),
      subDict_cons_ne "buy" (PyVal.dict bd) rest "investment" (by decide),
      subDict_cons_ne "buy" (PyVal.dict ((k, v) :: bd)) rest "tax"
        (by decide),
      subDict_cons_ne "buy" (PyVal.dict bd) rest "tax" (by decide)]
    rw [List.filter_cons, List.filter_cons]
    simp

/-- C8 witness: the amended behavior instantiated on a concrete mapping —
the success test agrees with the bad-key test, a junk top-level key and a
junk buy key are ignored, and the empty mapping gives the defaults. -/
theorem dict_to_params_behavior_witness :
    (exceptOk (dict_to_params [("buy", .dict [("purchase_price", .num 5)])])
      = dictOkKeys [("buy", .dict [("purchase_price", .num 5)])]) ∧
    dict_to_params
        [("junk", .num 3), ("buy", .dict [("purchase_price", .num 5)])]
      = dict_to_params [("buy", .dict [("purchase_price", .num 5)])] ∧
    dict_to_params [("buy", .dict [("zzz", .num 1), ("lmi", .num 2)])]
      = dict_to_params [("buy", .dict [("lmi", .num 2)])] ∧
    dict_to_params []
      = .ok { buy := {}, rent := {}, investment := {}, tax := {} } :=
  ⟨(dict_to_params_behavior [("buy", .dict [("purchase_price", .num 5)])]).1,
   (dict_to_params_behavior [("buy", .dict [("purchase_price", .num 5)])]).2.1
     "junk" (.num 3) rfl,
   (dict_to_params_behavior [("buy", .dict [("lmi", .num 2)])]).2.2.1
     "zzz" (.num 1) [("lmi", .num 2)] [] rfl,
   (dict_to_params_behavior []).2.2.2⟩

/-! ### Claim C9: sensitivity sweep -/

/-- C9 counterexample: "frobnicate" is not a field (nor any attribute) of
`BuyParams`, so the path "buy.frobnicate" does not address a real field,
yet `sweep` does not fail: `setattr` on a plain dataclass silently creates
a new instance attribute, and the sweep returns one result per value. -/
theorem sweep_silent_unknown_cex :
    ((buyFieldNames ++ buyExtraAttrNames).contains "frobnicate") = false ∧
    setNestedAttr c9Params "buy.frobnicate" 1 = .ok c9Params ∧
    (sweep c9Params "buy.frobnicate" [1, 2]).map List.length = .ok 2 :=
  ⟨rfl, rfl, rfl⟩

/-- A successful sweep row carries the swept value it was built from. -/
theorem sweepOne_param_value (p : ScenarioParams) (path : String) (v : ℚ)
    (r : SweepResult) (h : sweepOne p path v = .ok r) : r.param_value = v := by
  simp only [sweepOne] at h
  cases hs : setNestedAttr p path v with
  | error e =>
      rw [hs] at h
      simp [bind, Except.bind] at h
  | ok q =>
      rw [hs] at h
      simp only [bind, Except.bind] at h
      cases hd : q.buy.get_stamp_duty with
      | error e =>
          rw [hd] at h
          simp [bind, Except.bind] at h
      | ok sd =>
          rw [hd] at h
          simp only [bind, Except.bind, pure, Except.pure,
            Except.ok.injEq] at h
          rw [← h]

/-- A successful sweep returns one row per value in input order. -/
theorem sweep_ok_order (p : ScenarioParams) (path : String) :
    ∀ (vs : List ℚ) (rs : List SweepResult), sweep p path vs = .ok rs →
      rs.length = vs.length ∧
      ∀ i, i < vs.length →
        (rs.getD i default).param_value = vs.getD i 0 := by
  intro vs
  induction vs with
  | nil =>
      intro rs h
      simp only [sweep, List.mapM_nil, pure, Except.pure,
        Except.ok.injEq] at h
      subst h
      simp
  | cons v tl ih =>
      intro rs h
      rw [sweep, List.mapM_cons] at h
      cases h1 : sweepOne p path v with
      | error e =>
          rw [h1] at h
          simp [bind, Except.bind] at h
      | ok r =>
          rw [h1] at h
          cases h2 : tl.mapM (sweepOne p path) with
          | error e =>
              rw [h2] at h
              simp [bind, Except.bind] at h
          | ok rest =>
              rw [h2] at h
              simp only [bind, Except.bind, pure, Except.pure,
                Except.ok.injEq] at h
              subst h
              obtain ⟨ihl, ihv⟩ := ih rest h2
              refine ⟨by simp [ihl], ?_⟩
              intro i hi
              cases i with
              | zero => simpa using sweepOne_param_value p path v r h1
              | succ j =>
                  have hj : j < tl.length := by simpa using hi
                  simpa using ihv j hj

/-- C9 amended: a successful `sweep` returns one `SweepResult` per swept
value in input order; it fails with an attribute-resolution error when a
non-final path component does not address a real attribute (and the values
list is non-empty, since an empty sweep never touches the path); but when
only the final component is not a real attribute, `setattr` silently
creates an unused instance attribute and the sweep proceeds on unmodified
parameters — it fails for a final component naming a read-only property
such as `buy.deposit`. -/
theorem sweep_behavior (p : ScenarioParams) (path : String) (vs : List ℚ)
    (v : ℚ) (a b last : String) (rest2 : List String) :
    (∀ rs, sweep p path vs = .ok rs →
      rs.length = vs.length ∧
      ∀ i, i < vs.length →
        (rs.getD i default).param_value = vs.getD i 0) ∧
    (splitDots path = a :: b :: rest2 → scenGetattr p a = none → vs ≠ [] →
      exceptOk (sweep p path vs) = false) ∧
    (splitDots path = ["buy", last] →
      ((buyFieldNames ++ buyExtraAttrNames).contains last) = false →
      setNestedAttr p path v = .ok p) ∧
    (splitDots path = ["buy", "deposit"] →
      setNestedAttr p path v
        = .error "AttributeError: property has no setter") := by
  refine ⟨fun rs h => sweep_ok_order p path vs rs h, ?_, ?_, ?_⟩
  · intro hsplit hget hvs
    cases vs with
    | nil => exact absurd rfl hvs
    | cons v0 tl =>
        have hset : setNestedAttr p path v0
            = .error "AttributeError: unknown attribute" := by
          rw [setNestedAttr, hsplit]
          cases rest2 <;> simp [hget]
        have hone : sweepOne p path v0
            = .error "AttributeError: unknown attribute" := by
          simp only [sweepOne, hset, bind, Except.bind]
        have hsw : sweep p path (v0 :: tl)
            = .error "AttributeError: unknown attribute" := by
          rw [sweep, List.mapM_cons, hone]
          simp [bind, Except.bind]
        rw [hsw]
        rfl
  · intro hsplit hk
    have hkk : last ∉ buyFieldNames ∧ last ∉ buyExtraAttrNames := by
      simpa using hk
    have hA : ¬ (last = "deposit" ∨ last = "loan_amount") := by
      rintro (rfl | rfl)
      · exact hkk.2 (by simp [buyExtraAttrNames])
      · exact hkk.2 (by simp [buyExtraAttrNames])
    have hB : ¬ (buyFieldNames.contains last = true) := by
      intro hc
      exact hkk.1 (by simpa using hc)
    rw [setNestedAttr, hsplit]
    simp only [scenGetattr, subSetattr]
    rw [if_neg hA, if_neg hB]
  · intro hsplit
    rw [setNestedAttr, hsplit]
    rfl

/-- C9 witness: a sweep of the inflation rate over two values returns two
rows carrying the swept values in order; a bad first component errors; an
unknown final component is silently absorbed; the `buy.deposit` property
raises. -/
theorem sweep_behavior_witness :
    (sweep c9Params "inflation_rate" [1, 2]).map List.length = .ok 2 ∧
    (sweep c9Params "inflation_rate" [1, 2]).map
        (fun rs => (rs.getD 1 default).param_value) = .ok 2 ∧
    exceptOk (sweep c9Params "nothere.x" [1]) = false ∧
    setNestedAttr c9Params "buy.zzz" 7 = .ok c9Params ∧
    setNestedAttr c9Params "buy.deposit" 7
      = .error "AttributeError: property has no setter" := by
  have hok : exceptOk (sweep c9Params "inflation_rate" [1, 2]) = true := rfl
  refine ⟨?_, ?_, ?_, ?_, ?_⟩
  · cases h : sweep c9Params "inflation_rate" [1, 2] with
    | error e => rw [h] at hok; exact absurd hok (by simp [exceptOk])
    | ok rs =>
        have hlen := ((sweep_behavior c9Params "inflation_rate" [1, 2] 7
          "x" "y" "z" []).1 rs h).1
        simp [Except.map, hlen]
  · cases h : sweep c9Params "inflation_rate" [1, 2] with
    | error e => rw [h] at hok; exact absurd hok (by simp [exceptOk])
    | ok rs =>
        have hpv := ((sweep_behavior c9Params "inflation_rate" [1, 2] 7
          "x" "y" "z" []).1 rs h).2 1 (by norm_num)
        have h2 : (rs.getD 1 default).param_value = 2 := by simpa using hpv
        rw [List.getD_eq_getElem?_getD] at h2
        simp [Except.map, h2]
  · exact (sweep_behavior c9Params "nothere.x" [1] 7 "nothere" "x" "z"
      []).2.1 rfl rfl (by simp)
  · exact (sweep_behavior c9Params "buy.zzz" [1] 7 "a" "b" "zzz" []).2.2.1
      rfl rfl
  · exact (sweep_behavior c9Params "buy.deposit" [1] 7 "a" "b" "c"
      []).2.2.2 rfl

/-! ### Claim C4: Monte Carlo boundedness -/

/-- Clipping never goes below the floor when the floor is at most the
ceiling. -/
theorem clip_ge (x lo hi : ℚ) (h : lo ≤ hi) : lo ≤ clip x lo hi := by
  rw [clip]
  exact le_min (le_max_right x lo) h

/-- The updated mortgage balance of a Monte Carlo step is clamped at 0. -/
theorem mcStep_mortgage_nonneg (p : ScenarioParams) {N : ℕ}
    (shock : Fin 5 → Fin N → ℚ) (year : ℕ) (s : MCState N) (i : Fin N) :
    0 ≤ (mcStep p shock year s).mortgage_bal i := by
  simp only [mcStep]
  exact le_max_right _ 0

/-- The updated property value of a Monte Carlo step compounds by the
clipped realized appreciation. -/
theorem mcStep_property (p : ScenarioParams) {N : ℕ}
    (shock : Fin 5 → Fin N → ℚ) (year : ℕ) (s : MCState N) (i : Fin N) :
    (mcStep p shock year s).property_value i
      = s.property_value i
        * (1 + clip (baseMeans p 0 + shock 0 i) (FLOORS 0) (CEILINGS 0)) :=
  rfl

/-- Non-negativity invariant of the Monte Carlo state: property values and
mortgage balances stay non-negative for any shock realisation, given a
non-negative purchase price and a deposit fraction of at most 1. -/
theorem mcState_nonneg (N : ℕ) (p : ScenarioParams) (sd : ℚ)
    (shocks : ℕ → Fin 5 → Fin N → ℚ) (hprice : 0 ≤ p.buy.purchase_price)
    (hdep : p.buy.deposit_pct ≤ 1) :
    ∀ y : ℕ,
      (∀ i, 0 ≤ (mcStateAt N p sd shocks y).property_value i) ∧
      (∀ i, 0 ≤ (mcStateAt N p sd shocks y).mortgage_bal i) := by
  intro y
  induction y with
  | zero =>
      constructor <;> intro i <;>
        simp only [mcStateAt, mcInit, BuyParams.loan_amount, BuyParams.deposit]
      · exact hprice
      · nlinarith [mul_nonneg hprice (sub_nonneg.mpr hdep)]
  | succ y ih =>
      constructor
      · intro i
        rw [mcStateAt, mcStep_property]
        have hfloor : FLOORS 0 ≤ CEILINGS 0 := by norm_num [FLOORS, CEILINGS]
        have hclip := clip_ge (baseMeans p 0 + shocks (y + 1) 0 i)
          (FLOORS 0) (CEILINGS 0) hfloor
        have hfv : (-1 : ℚ) < FLOORS 0 := by norm_num [FLOORS]
        have := ih.1 i
        nlinarith
      · intro i
        rw [mcStateAt]
        exact mcStep_mortgage_nonneg p (shocks (y + 1)) (y + 1)
          (mcStateAt N p sd shocks y) i

/-- C4: every entry of the `property_values` and `mortgage_balances` grids
of `mc_simulate` is non-negative, at every year up to the horizon and on
every path, for every shock realisation (hence for every seed and
volatility configuration), whenever the purchase price is non-negative and
the deposit fraction is at most 1. -/
theorem mc_grids_nonneg (N : ℕ) (p : ScenarioParams) (sd : ℚ)
    (shocks : ℕ → Fin 5 → Fin N → ℚ) (y : ℕ)
    (hy : y ≤ p.time_horizon_years) (i : Fin N)
    (hprice : 0 ≤ p.buy.purchase_price) (hdep : p.buy.deposit_pct ≤ 1) :
    0 ≤ mcPropertyValues N p sd shocks y i ∧
    0 ≤ mcMortgageBalances N p sd shocks y i :=
  ⟨(mcState_nonneg N p sd shocks hprice hdep y).1 i,
   (mcState_nonneg N p sd shocks hprice hdep y).2 i⟩

/-- C4 witness: boundedness at year 2 of a concrete scenario with a single
zero-shock path. -/
theorem mc_grids_nonneg_witness :
    (2 ≤ c4Params.time_horizon_years ∧ 0 ≤ c4Params.buy.purchase_price ∧
      c4Params.buy.deposit_pct ≤ 1) ∧
    0 ≤ mcPropertyValues 1 c4Params 0 (fun _ _ _ => 0) 2 0 ∧
    0 ≤ mcMortgageBalances 1 c4Params 0 (fun _ _ _ => 0) 2 0 :=
  ⟨⟨by norm_num [c4Params], by norm_num [c4Params], by norm_num [c4Params]⟩,
   (mc_grids_nonneg 1 c4Params 0 (fun _ _ _ => 0) 2
     (by norm_num [c4Params]) 0 (by norm_num [c4Params])
     (by norm_num [c4Params])).1,
   (mc_grids_nonneg 1 c4Params 0 (fun _ _ _ => 0) 2
     (by norm_num [c4Params]) 0 (by norm_num [c4Params])
     (by norm_num [c4Params])).2⟩

/-! ### Claim C1: zero-volatility equivalence -/

/-- Without a rate schedule every year uses the base mortgage rate. -/
theorem rate_for_year_none (b : BuyParams) (h : b.rate_schedule = none) :
    ∀ y, b.rate_for_year y = b.mortgage_rate := by
  intro y
  rw [BuyParams.rate_for_year, h]

/-- Clipping a value already inside the bounds is the identity. -/
theorem clip_eq_self (x lo hi : ℚ) (h1 : lo ≤ x) (h2 : x ≤ hi) :
    clip x lo hi = x := by
  rw [clip, max_eq_left h1, min_eq_left h2]

/-- Closed form of the uncapped balance recurrence (nonzero rate): the
annuity formula used by the vectorized engine. -/
theorem uncappedBal_closed_form (rate pmt b : ℚ) (hr : rate ≠ 0) :
    ∀ m, uncappedBal rate pmt b m
      = b * (1 + rate / 12) ^ m
        - pmt * (((1 + rate / 12) ^ m - 1) / (rate / 12)) := by
  have h12 : rate / 12 ≠ 0 := div_ne_zero hr (by norm_num)
  intro m
  induction m with
  | zero => simp [uncappedBal]
  | succ m ih =>
      rw [uncappedBal, ih]
      field_simp
      ring

/-- The effective dividend tax rate collapses to the plain marginal rate
when no dividends are franked. -/
theorem effectiveDivRate_franking_zero (p : ScenarioParams)
    (h : p.investment.franking_rate = 0) :
    effectiveDivRate p = marginal_rate p.tax.gross_income := by
  rw [effectiveDivRate, h]
  ring

/-- Explicit form of `_grow_investments` for a positive return rate. -/
theorem grow_investments_pos (P ret divy m : ℚ) (h : 0 < ret) :
    grow_investments P ret divy m = P + P * ret - P * divy * m := by
  rw [grow_investments, if_pos h]
  field_simp
  ring

/-- Deterministic year step when the year rate equals the current rate:
rate and payment are kept, and the remaining state fields take their
loop-body values. -/
theorem detStep_keep (p : ScenarioParams) (year : ℕ) (s : DetState)
    (hnr : p.buy.rate_for_year year = s.current_rate) :
    (detStep p year s).1.current_rate = s.current_rate ∧
    (detStep p year s).1.monthly_pmt = s.monthly_pmt ∧
    (detStep p year s).1.mortgage_bal
      = (if s.mortgage_bal > 0
         then (mortgage_balance_after_year s.mortgage_bal s.current_rate
            s.monthly_pmt).1
         else s.mortgage_bal) ∧
    (detStep p year s).1.property_value
      = s.property_value * (1 + p.buy.property_appreciation_rate) ∧
    (detStep p year s).1.weekly_rent
      = s.weekly_rent * (1 + p.rent.rent_increase_rate) := by
  have hcond : ¬ (p.buy.rate_for_year year ≠ s.current_rate ∧
      s.mortgage_bal > 0) := fun hcc => hcc.1 hnr
  refine ⟨?_, ?_, ?_, rfl, rfl⟩ <;>
    simp only [detStep] <;> rw [if_neg hcond] <;> dsimp only
  split_ifs <;> rfl

/-- Deterministic year step, investment pools: the three-way surplus branch
collapses to one guarded addition per pool. Stated in terms of the year
costs of both scenarios. -/
theorem detStep_invest (p : ScenarioParams) (year : ℕ) (s : DetState)
    (hnr : p.buy.rate_for_year year = s.current_rate) :
    (detStep p year s).1.buy_investments
      = grow_investments s.buy_investments p.investment.return_rate
          p.investment.dividend_yield p.tax.marginal_rate
        + (if detRentCosts p year s > detBuyCosts p year s then
            (detRentCosts p year s - detBuyCosts p year s)
              * (1 + p.investment.return_rate / 2)
           else 0) ∧
    (detStep p year s).1.rent_investments
      = grow_investments s.rent_investments p.investment.return_rate
          p.investment.dividend_yield p.tax.marginal_rate
        + (if detBuyCosts p year s > detRentCosts p year s then
            (detBuyCosts p year s - detRentCosts p year s)
              * (1 + p.investment.return_rate / 2)
           else 0) := by
  have hcond : ¬ (p.buy.rate_for_year year ≠ s.current_rate ∧
      s.mortgage_bal > 0) := fun hcc => hcc.1 hnr
  constructor <;>
    simp only [detStep, detBuyCosts, detRentCosts] <;>
    rw [if_neg hcond] <;> dsimp only <;>
    split_ifs <;> first | linarith | rfl | ring

/-- Monte Carlo step, weekly rent projection. -/
theorem mcStep_weekly_self (p : ScenarioParams) {N : ℕ}
    (shock : Fin 5 → Fin N → ℚ) (year : ℕ) (s : MCState N) (i : Fin N) :
    (mcStep p shock year s).weekly_rent i
      = s.weekly_rent i
        * (1 + clip (baseMeans p 2 + shock 2 i) (FLOORS 2) (CEILINGS 2)) :=
  rfl

/-- Monte Carlo step, mortgage balance in terms of the step's own realized
rate and payment (the closed-form annuity update). -/
theorem mcStep_bal_self (p : ScenarioParams) {N : ℕ}
    (shock : Fin 5 → Fin N → ℚ) (year : ℕ) (s : MCState N) (i : Fin N) :
    (mcStep p shock year s).mortgage_bal i
      = max (if s.mortgage_bal i > 0 then
            s.mortgage_bal i *
              (if (mcStep p shock year s).current_rate i / 12 > 0 then
                (1 + (mcStep p shock year s).current_rate i / 12) ^ 12 else 1)
            - (mcStep p shock year s).monthly_pmt i *
              (if (mcStep p shock year s).current_rate i / 12 > 0 then
                ((if (mcStep p shock year s).current_rate i / 12 > 0 then
                    (1 + (mcStep p shock year s).current_rate i / 12) ^ 12
                  else 1) - 1)
                  / ((mcStep p shock year s).current_rate i / 12)
               else 12)
          else 0) 0 :=
  rfl

/-- Monte Carlo step, investment pools in terms of the step's own realized
values, with the year costs of both sides spelled out. -/
theorem mcStep_invest_self (p : ScenarioParams) {N : ℕ}
    (shock : Fin 5 → Fin N → ℚ) (year : ℕ) (s : MCState N) (i : Fin N) :
    (mcStep p shock year s).buy_investments i
      = s.buy_investments i
        + s.buy_investments i
          * clip (baseMeans p 1 + shock 1 i) (FLOORS 1) (CEILINGS 1)
        - s.buy_investments i * p.investment.dividend_yield
          * effectiveDivRate p
        + (if mcRentCostsAt p shock year s i > mcBuyCostsAt p shock year s i
           then mcRentCostsAt p shock year s i - mcBuyCostsAt p shock year s i
           else 0)
          * (1 + clip (baseMeans p 1 + shock 1 i) (FLOORS 1) (CEILINGS 1) / 2) ∧
    (mcStep p shock year s).rent_investments i
      = s.rent_investments i
        + s.rent_investments i
          * clip (baseMeans p 1 + shock 1 i) (FLOORS 1) (CEILINGS 1)
        - s.rent_investments i * p.investment.dividend_yield
          * effectiveDivRate p
        + (if mcBuyCostsAt p shock year s i > mcRentCostsAt p shock year s i
           then mcBuyCostsAt p shock year s i - mcRentCostsAt p shock year s i
           else 0)
          * (1 + clip (baseMeans p 1 + shock 1 i) (FLOORS 1) (CEILINGS 1) / 2) :=
  ⟨rfl, rfl⟩

/-- The annuity payment is positive for a positive principal, positive rate
and at least one month. -/
theorem monthly_repayment_pos (P r : ℚ) (n : ℕ) (hP : 0 < P) (hr : 0 < r)
    (hn : n ≠ 0) : 0 < monthly_repayment P r n := by
  rw [monthly_repayment, if_neg (ne_of_gt hr)]
  have hr12 : 0 < r / 12 := div_pos hr (by norm_num)
  have h1 : (1 : ℚ) < 1 + r / 12 := by linarith
  have h2 : (1 : ℚ) < (1 + r / 12) ^ n := one_lt_pow₀ h1 hn
  apply div_pos
  · exact mul_pos hP (mul_pos hr12 (by positivity))
  · linarith

/-- With zero shocks and base rates inside the clip corridor, every
realized Monte Carlo rate collapses to its deterministic base value. -/
theorem clip_base_vals (p : ScenarioParams)
    (hmr0 : 1/100 ≤ p.buy.mortgage_rate) (hmr1 : p.buy.mortgage_rate ≤ 15/100)
    (happ0 : -(20/100) ≤ p.buy.property_appreciation_rate)
    (happ1 : p.buy.property_appreciation_rate ≤ 30/100)
    (hret0 : 0 < p.investment.return_rate)
    (hret1 : p.investment.return_rate ≤ 50/100)
    (hri0 : 0 ≤ p.rent.rent_increase_rate)
    (hri1 : p.rent.rent_increase_rate ≤ 15/100)
    (hinf0 : 0 ≤ p.inflation_rate) (hinf1 : p.inflation_rate ≤ 12/100) :
    clip (baseMeans p 0 + 0) (FLOORS 0) (CEILINGS 0)
        = p.buy.property_appreciation_rate ∧
    clip (baseMeans p 1 + 0) (FLOORS 1) (CEILINGS 1)
        = p.investment.return_rate ∧
    clip (baseMeans p 2 + 0) (FLOORS 2) (CEILINGS 2)
        = p.rent.rent_increase_rate ∧
    clip (baseMeans p 3 + 0) (FLOORS 3) (CEILINGS 3) = p.inflation_rate ∧
    clip (baseMeans p 4 + 0) (FLOORS 4) (CEILINGS 4) = p.buy.mortgage_rate := by
  have e0 : baseMeans p 0 = p.buy.property_appreciation_rate := rfl
  have e1 : baseMeans p 1 = p.investment.return_rate := rfl
  have e2 : baseMeans p 2 = p.rent.rent_increase_rate := rfl
  have e3 : baseMeans p 3 = p.inflation_rate := rfl
  have e4 : baseMeans p 4 = p.buy.mortgage_rate := rfl
  have f0 : FLOORS 0 = -(20/100) := rfl
  have f1 : FLOORS 1 = -(40/100) := rfl
  have f2 : FLOORS 2 = 0 := rfl
  have f3 : FLOORS 3 = 0 := rfl
  have f4 : FLOORS 4 = 1/100 := rfl
  have g0 : CEILINGS 0 = 30/100 := rfl
  have g1 : CEILINGS 1 = 50/100 := rfl
  have g2 : CEILINGS 2 = 15/100 := rfl
  have g3 : CEILINGS 3 = 12/100 := rfl
  have g4 : CEILINGS 4 = 15/100 := rfl
  refine ⟨?_, ?_, ?_, ?_, ?_⟩
  · rw [e0, f0, g0, add_zero]; exact clip_eq_self _ _ _ happ0 happ1
  · rw [e1, f1, g1, add_zero]
    exact clip_eq_self _ _ _ (by linarith) (by linarith)
  · rw [e2, f2, g2, add_zero]; exact clip_eq_self _ _ _ hri0 hri1
  · rw [e3, f3, g3, add_zero]; exact clip_eq_self _ _ _ hinf0 hinf1
  · rw [e4, f4, g4, add_zero]; exact clip_eq_self _ _ _ hmr0 hmr1

/-- Without a first home buyer the Monte Carlo upfront cost agrees with the
deterministic one. -/
theorem mcUpfront_no_grant (p : ScenarioParams) (sd : ℚ)
    (hfhb : p.buy.first_home_buyer = false) :
    mcUpfront p sd = detUpfront p sd := by
  rw [mcUpfront, detUpfront, hfhb]
  norm_num

/-- Unfolds the `noMidYearPayoff` guard into its per-year statement. -/
theorem noMidYearPayoff_spec (p : ScenarioParams) (sd : ℚ)
    (h : noMidYearPayoff p sd = true) :
    ∀ y < p.time_horizon_years, 0 < (detStateAt p sd y).mortgage_bal →
      0 ≤ uncappedBal (detStateAt p sd y).current_rate
        (detStateAt p sd y).monthly_pmt (detStateAt p sd y).mortgage_bal 12 := by
  intro y hy hbal
  rw [noMidYearPayoff, List.all_eq_true] at h
  have hmem : y ∈ List.range p.time_horizon_years := List.mem_range.mpr hy
  have := h y hmem
  simp only [Bool.or_eq_true, decide_eq_true_eq] at this
  rcases this with h1 | h2
  · exact absurd hbal h1
  · exact h2

/-- Zero-shock Monte Carlo step against an agreeing deterministic state:
the realized rate grid stays at the base mortgage rate, the payment grid
stays at the deterministic payment (the year-1 recompute lands on the same
annuity formula), and the schedule tracker is unchanged. -/
theorem mcStep_cr_pm (p : ScenarioParams) {N : ℕ} (year : ℕ) (d : DetState)
    (mc : MCState N)
    (hsched : p.buy.rate_schedule = none)
    (hmr0 : 1/100 ≤ p.buy.mortgage_rate)
    (hterm : 1 ≤ p.buy.mortgage_term_years)
    (hc4 : clip (baseMeans p 4 + 0) (FLOORS 4) (CEILINGS 4)
      = p.buy.mortgage_rate)
    (hc : ∀ i, mc.current_rate i = d.current_rate)
    (hm : ∀ i, mc.monthly_pmt i = d.monthly_pmt)
    (hb : ∀ i, mc.mortgage_bal i = d.mortgage_bal)
    (hprev : mc.prev_sched_rate = p.buy.mortgage_rate)
    (hdcr : d.current_rate = p.buy.mortgage_rate)
    (hbal0 : 0 ≤ d.mortgage_bal)
    (hpmt1 : year = 1 → d.monthly_pmt
      = monthly_repayment d.mortgage_bal p.buy.mortgage_rate
          (p.buy.mortgage_term_years * 12)) :
    (∀ i, (mcStep p (fun _ _ => 0) year mc).current_rate i
        = p.buy.mortgage_rate) ∧
    (∀ i, (mcStep p (fun _ _ => 0) year mc).monthly_pmt i = d.monthly_pmt) ∧
    (mcStep p (fun _ _ => 0) year mc).prev_sched_rate
        = p.buy.mortgage_rate := by
  have hrfy := rate_for_year_none p.buy hsched
  have hsc : ¬ (p.buy.rate_for_year year ≠ mc.prev_sched_rate) := by
    rw [hrfy, hprev]
    exact fun hne => hne rfl
  have hcri : ∀ j : Fin N, mc.current_rate j = p.buy.mortgage_rate :=
    fun j => (hc j).trans hdcr
  have hne0 : ¬ (p.buy.mortgage_rate = 0) := by
    intro h0
    rw [h0] at hmr0
    norm_num at hmr0
  have hnex : ¬ (∃ j : Fin N, clip (baseMeans p 4 + 0) (FLOORS 4) (CEILINGS 4)
      ≠ mc.current_rate j) := by
    rintro ⟨j, hj⟩
    exact hj (hc4.trans (hcri j).symm)
  rcases eq_or_ne year 1 with hy1 | hy1
  · subst hy1
    refine ⟨fun i => ?_, fun i => ?_, ?_⟩
    · simp only [mcStep]
      rw [if_neg hsc]
      dsimp only
      rw [if_pos (Or.inr (trivial : True))]
      exact hc4
    · simp only [mcStep]
      rw [if_neg hsc]
      dsimp only
      rw [if_pos (Or.inr (trivial : True))]
      have hrem : ((p.buy.mortgage_term_years : ℤ) - (((1 : ℕ) : ℤ) - 1)) * 12
          > 0 := by
        have h1 : (1 : ℤ) ≤ (p.buy.mortgage_term_years : ℤ) := by
          exact_mod_cast hterm
        push_cast
        linarith
      rw [if_pos hrem]
      dsimp only
      rw [hc4, hb i, if_neg hne0, hpmt1 rfl, monthly_repayment, if_neg hne0]
      dsimp only
      have hn : ((((p.buy.mortgage_term_years : ℤ) - (((1 : ℕ) : ℤ) - 1))
          * 12)).toNat = p.buy.mortgage_term_years * 12 := by
        omega
      rw [hn]
      split_ifs with hbal
      · ring
      · have hz : d.mortgage_bal = 0 := le_antisymm (not_lt.mp hbal) hbal0
        rw [hz]
        ring
    · simp only [mcStep]
      rw [if_neg hsc]
      exact hprev
  · have hnc : ¬ ((∃ j : Fin N, clip (baseMeans p 4 + 0) (FLOORS 4)
        (CEILINGS 4) ≠ mc.current_rate j) ∨ year = 1) := by
      rintro (hex | hy)
      · exact hnex hex
      · exact hy1 hy
    refine ⟨fun i => ?_, fun i => ?_, ?_⟩
    · simp only [mcStep]
      rw [if_neg hsc]
      dsimp only
      rw [if_neg hnc]
      exact hcri i
    · simp only [mcStep]
      rw [if_neg hsc]
      dsimp only
      rw [if_neg hnc]
      exact hm i
    · simp only [mcStep]
      rw [if_neg hsc]
      exact hprev

/-- Zero-shock Monte Carlo step: when no year ends the loan mid-year, the
closed-form annuity balance update agrees with the deterministic monthly
amortization loop. -/
theorem mcStep_bal_agrees (p : ScenarioParams) {N : ℕ} (year : ℕ)
    (d : DetState) (mc : MCState N)
    (hsched : p.buy.rate_schedule = none)
    (hmr0 : 1/100 ≤ p.buy.mortgage_rate)
    (hb : ∀ i, mc.mortgage_bal i = d.mortgage_bal)
    (hdcr : d.current_rate = p.buy.mortgage_rate)
    (hbal0 : 0 ≤ d.mortgage_bal)
    (hpmtpos : 0 < d.mortgage_bal → 0 < d.monthly_pmt)
    (hpay : 0 < d.mortgage_bal →
      0 ≤ uncappedBal d.current_rate d.monthly_pmt d.mortgage_bal 12)
    (hcr : ∀ i, (mcStep p (fun _ _ => 0) year mc).current_rate i
        = p.buy.mortgage_rate)
    (hpm : ∀ i, (mcStep p (fun _ _ => 0) year mc).monthly_pmt i
        = d.monthly_pmt) :
    ∀ i, (mcStep p (fun _ _ => 0) year mc).mortgage_bal i
        = (detStep p year d).1.mortgage_bal := by
  intro i
  have hnr : p.buy.rate_for_year year = d.current_rate :=
    (rate_for_year_none p.buy hsched year).trans hdcr.symm
  have hrpos : (0:ℚ) < p.buy.mortgage_rate := lt_of_lt_of_le (by norm_num) hmr0
  have hr12 : (0:ℚ) < p.buy.mortgage_rate / 12 := div_pos hrpos (by norm_num)
  rw [mcStep_bal_self, hcr i, hpm i, hb i,
    (detStep_keep p year d hnr).2.2.1, hdcr]
  simp only [if_pos hr12]
  split_ifs with hbal
  · have hpay' : 0 ≤ uncappedBal p.buy.mortgage_rate d.monthly_pmt
        d.mortgage_bal 12 := by
      have h := hpay hbal
      rwa [hdcr] at h
    have hloop := amortizeLoop_no_payoff p.buy.mortgage_rate d.monthly_pmt
      (le_of_lt hrpos) (hpmtpos hbal) 12 d.mortgage_bal 0 0 hbal hpay'
    rw [mortgage_balance_after_year, hloop,
      uncappedBal_closed_form p.buy.mortgage_rate d.monthly_pmt d.mortgage_bal
        (ne_of_gt hrpos) 12]
  · have hz : d.mortgage_bal = 0 := le_antisymm (not_lt.mp hbal) hbal0
    rw [hz]
    simp

/-- Zero-shock Monte Carlo step: both year-cost aggregates agree with the
deterministic loop's. -/
theorem mcStep_costs_agrees (p : ScenarioParams) {N : ℕ} (year : ℕ)
    (d : DetState) (mc : MCState N)
    (hsched : p.buy.rate_schedule = none)
    (hmr0 : 1/100 ≤ p.buy.mortgage_rate)
    (hc0 : clip (baseMeans p 0 + 0) (FLOORS 0) (CEILINGS 0)
      = p.buy.property_appreciation_rate)
    (hc3 : clip (baseMeans p 3 + 0) (FLOORS 3) (CEILINGS 3) = p.inflation_rate)
    (hp : ∀ i, mc.property_value i = d.property_value)
    (hw : ∀ i, mc.weekly_rent i = d.weekly_rent)
    (hb : ∀ i, mc.mortgage_bal i = d.mortgage_bal)
    (hdcr : d.current_rate = p.buy.mortgage_rate)
    (hbal0 : 0 ≤ d.mortgage_bal)
    (hpmtpos : 0 < d.mortgage_bal → 0 < d.monthly_pmt)
    (hpay : 0 < d.mortgage_bal →
      0 ≤ uncappedBal d.current_rate d.monthly_pmt d.mortgage_bal 12)
    (hcr : ∀ i, (mcStep p (fun _ _ => 0) year mc).current_rate i
        = p.buy.mortgage_rate)
    (hpm : ∀ i, (mcStep p (fun _ _ => 0) year mc).monthly_pmt i
        = d.monthly_pmt) :
    ∀ i, mcBuyCostsAt p (fun _ _ => 0) year mc i = detBuyCosts p year d ∧
      mcRentCostsAt p (fun _ _ => 0) year mc i = detRentCosts p year d := by
  intro i
  have hnr : p.buy.rate_for_year year = d.current_rate :=
    (rate_for_year_none p.buy hsched year).trans hdcr.symm
  have hrpos : (0:ℚ) < p.buy.mortgage_rate := lt_of_lt_of_le (by norm_num) hmr0
  constructor
  · have hbmc := mcStep_bal_agrees p year d mc hsched hmr0 hb hdcr hbal0
      hpmtpos hpay hcr hpm
    simp only [mcBuyCostsAt, detBuyCosts, hb, hp, hpm, hc0, hc3, hbmc]
    rw [(detStep_keep p year d hnr).2.2.1]
    split_ifs with hbal
    · have hpay' : 0 ≤ uncappedBal p.buy.mortgage_rate d.monthly_pmt
          d.mortgage_bal 12 := by
        have h := hpay hbal
        rwa [hdcr] at h
      have hloop := amortizeLoop_no_payoff p.buy.mortgage_rate d.monthly_pmt
        (le_of_lt hrpos) (hpmtpos hbal) 12 d.mortgage_bal 0 0 hbal hpay'
      have hmba : mortgage_balance_after_year d.mortgage_bal
          p.buy.mortgage_rate d.monthly_pmt
          = (max (uncappedBal p.buy.mortgage_rate d.monthly_pmt
              d.mortgage_bal 12) 0,
             0 + (d.mortgage_bal - uncappedBal p.buy.mortgage_rate
              d.monthly_pmt d.mortgage_bal 12),
             0 + (((12 : ℕ) : ℚ) * d.monthly_pmt
              - (d.mortgage_bal - uncappedBal p.buy.mortgage_rate
                d.monthly_pmt d.mortgage_bal 12))) := by
        rw [mortgage_balance_after_year, hloop]
      rw [hdcr, hmba]
      dsimp only
      rw [max_eq_left hpay']
      push_cast
      ring
    · dsimp only
  · simp only [mcRentCostsAt, detRentCosts, hw, hc3]

/-- The deterministic step preserves the loop invariants used in the
zero-volatility induction: constant rate, non-negative balance, positive
payment while a balance is live. -/
theorem detStep_invariants (p : ScenarioParams) (year : ℕ) (d : DetState)
    (hsched : p.buy.rate_schedule = none)
    (hdcr : d.current_rate = p.buy.mortgage_rate)
    (hbal0 : 0 ≤ d.mortgage_bal)
    (hpmtpos : 0 < d.mortgage_bal → 0 < d.monthly_pmt) :
    (detStep p year d).1.current_rate = p.buy.mortgage_rate ∧
    0 ≤ (detStep p year d).1.mortgage_bal ∧
    (0 < (detStep p year d).1.mortgage_bal
      → 0 < (detStep p year d).1.monthly_pmt) := by
  have hnr : p.buy.rate_for_year year = d.current_rate :=
    (rate_for_year_none p.buy hsched year).trans hdcr.symm
  obtain ⟨hkcr, hkpm, hkbal, _, _⟩ := detStep_keep p year d hnr
  refine ⟨hkcr.trans hdcr, ?_, ?_⟩
  · rw [hkbal]
    split_ifs with hbal
    · exact le_max_right _ _
    · exact hbal0
  · rw [hkpm, hkbal]
    intro h
    by_cases hbal : d.mortgage_bal > 0
    · exact hpmtpos hbal
    · rw [if_neg hbal] at h
      exact absurd h hbal

/-- One zero-shock Monte Carlo year step preserves agreement with the
deterministic year step. -/
theorem mc_step_agrees (p : ScenarioParams) {N : ℕ} (year : ℕ) (d : DetState)
    (mc : MCState N)
    (hsched : p.buy.rate_schedule = none)
    (hfrank : p.investment.franking_rate = 0)
    (hmr0 : 1/100 ≤ p.buy.mortgage_rate) (hmr1 : p.buy.mortgage_rate ≤ 15/100)
    (happ0 : -(20/100) ≤ p.buy.property_appreciation_rate)
    (happ1 : p.buy.property_appreciation_rate ≤ 30/100)
    (hret0 : 0 < p.investment.return_rate)
    (hret1 : p.investment.return_rate ≤ 50/100)
    (hri0 : 0 ≤ p.rent.rent_increase_rate)
    (hri1 : p.rent.rent_increase_rate ≤ 15/100)
    (hinf0 : 0 ≤ p.inflation_rate) (hinf1 : p.inflation_rate ≤ 12/100)
    (hterm : 1 ≤ p.buy.mortgage_term_years)
    (hag : MCAgreesDet p mc d)
    (hdcr : d.current_rate = p.buy.mortgage_rate)
    (hbal0 : 0 ≤ d.mortgage_bal)
    (hpmtpos : 0 < d.mortgage_bal → 0 < d.monthly_pmt)
    (hpay : 0 < d.mortgage_bal →
      0 ≤ uncappedBal d.current_rate d.monthly_pmt d.mortgage_bal 12)
    (hpmt1 : year = 1 → d.monthly_pmt
      = monthly_repayment d.mortgage_bal p.buy.mortgage_rate
          (p.buy.mortgage_term_years * 12)) :
    MCAgreesDet p (mcStep p (fun _ _ => 0) year mc) (detStep p year d).1 := by
  obtain ⟨hp, hb, hc, hm, hbi, hri', hwr, hprev⟩ := hag
  obtain ⟨hc0, hc1, hc2, hc3, hc4⟩ := clip_base_vals p hmr0 hmr1 happ0 happ1
    hret0 hret1 hri0 hri1 hinf0 hinf1
  have hnr : p.buy.rate_for_year year = d.current_rate :=
    (rate_for_year_none p.buy hsched year).trans hdcr.symm
  obtain ⟨hcr, hpm, hprev'⟩ := mcStep_cr_pm p year d mc hsched hmr0 hterm hc4
    hc hm hb hprev hdcr hbal0 hpmt1
  have hbmc := mcStep_bal_agrees p year d mc hsched hmr0 hb hdcr hbal0
    hpmtpos hpay hcr hpm
  have hcosts := mcStep_costs_agrees p year d mc hsched hmr0 hc0 hc3 hp hwr
    hb hdcr hbal0 hpmtpos hpay hcr hpm
  obtain ⟨hkcr, hkpm, hkbal, hkprop, hkwr⟩ := detStep_keep p year d hnr
  obtain ⟨hibuy, hirent⟩ := detStep_invest p year d hnr
  have hedr := effectiveDivRate_franking_zero p hfrank
  refine ⟨?_, ?_, ?_, ?_, ?_, ?_, ?_, hprev'⟩
  · intro i
    simp only [mcStep_property, hp, hc0, hkprop]
  · exact hbmc
  · exact fun i => (hcr i).trans (hkcr.trans hdcr).symm
  · exact fun i => (hpm i).trans hkpm.symm
  · intro i
    rw [(mcStep_invest_self p (fun _ _ => 0) year mc i).1]
    simp only [hbi, hc1, (hcosts i).1, (hcosts i).2, hedr]
    rw [hibuy, grow_investments_pos _ _ _ _ hret0]
    simp only [TaxParams.marginal_rate]
    split_ifs with hsur
    · ring
    · ring
  · intro i
    rw [(mcStep_invest_self p (fun _ _ => 0) year mc i).2]
    simp only [hri', hc1, (hcosts i).1, (hcosts i).2, hedr]
    rw [hirent, grow_investments_pos _ _ _ _ hret0]
    simp only [TaxParams.marginal_rate]
    split_ifs with hsur
    · ring
    · ring
  · intro i
    simp only [mcStep_weekly_self, hwr, hc2, hkwr]

/-- Year-by-year induction: under zero shocks the Monte Carlo state grids
stay constant at the deterministic loop state at every simulated year. -/
theorem mcStateAt_agrees (p : ScenarioParams) (sd : ℚ) (N : ℕ)
    (hsched : p.buy.rate_schedule = none)
    (hfhb : p.buy.first_home_buyer = false)
    (hfrank : p.investment.franking_rate = 0)
    (hprice : 0 ≤ p.buy.purchase_price)
    (hdp : p.buy.deposit_pct ≤ 1)
    (hterm : 1 ≤ p.buy.mortgage_term_years)
    (hmr0 : 1/100 ≤ p.buy.mortgage_rate) (hmr1 : p.buy.mortgage_rate ≤ 15/100)
    (happ0 : -(20/100) ≤ p.buy.property_appreciation_rate)
    (happ1 : p.buy.property_appreciation_rate ≤ 30/100)
    (hret0 : 0 < p.investment.return_rate)
    (hret1 : p.investment.return_rate ≤ 50/100)
    (hri0 : 0 ≤ p.rent.rent_increase_rate)
    (hri1 : p.rent.rent_increase_rate ≤ 15/100)
    (hinf0 : 0 ≤ p.inflation_rate) (hinf1 : p.inflation_rate ≤ 12/100)
    (hnomid : noMidYearPayoff p sd = true) :
    ∀ y, y ≤ p.time_horizon_years →
      MCAgreesDet p (mcStateAt N p sd (fun _ _ _ => 0) y) (detStateAt p sd y) ∧
      (detStateAt p sd y).current_rate = p.buy.mortgage_rate ∧
      0 ≤ (detStateAt p sd y).mortgage_bal ∧
      (0 < (detStateAt p sd y).mortgage_bal
        → 0 < (detStateAt p sd y).monthly_pmt) := by
  intro y
  induction y with
  | zero =>
      intro _
      have hrfy := rate_for_year_none p.buy hsched
      have hup := mcUpfront_no_grant p sd hfhb
      have hloan : p.buy.loan_amount
          = p.buy.purchase_price * (1 - p.buy.deposit_pct) := by
        rw [BuyParams.loan_amount, BuyParams.deposit]
        ring
      have hloan0 : 0 ≤ p.buy.loan_amount := by
        rw [hloan]
        exact mul_nonneg hprice (by linarith)
      refine ⟨⟨fun i => rfl, fun i => rfl, fun i => rfl, fun i => rfl,
        fun i => ?_, fun i => rfl, fun i => rfl, hrfy 1⟩, hrfy 1, hloan0, ?_⟩
      · show max (p.existing_savings - mcUpfront p sd) 0
          = max (p.existing_savings - detUpfront p sd) 0
        rw [hup]
      · intro hb0
        show 0 < monthly_repayment p.buy.loan_amount (p.buy.rate_for_year 1)
          (p.buy.mortgage_term_years * 12)
        rw [hrfy 1]
        exact monthly_repayment_pos _ _ _ hb0
          (lt_of_lt_of_le (by norm_num) hmr0) (by omega)
  | succ y ih =>
      intro hy
      have hy' : y ≤ p.time_horizon_years := le_of_lt (Nat.lt_of_succ_le hy)
      obtain ⟨hag, hdcr, hbal0, hpmtpos⟩ := ih hy'
      have hpay := noMidYearPayoff_spec p sd hnomid y (Nat.lt_of_succ_le hy)
      have hpmt1 : y + 1 = 1 → (detStateAt p sd y).monthly_pmt
          = monthly_repayment (detStateAt p sd y).mortgage_bal
              p.buy.mortgage_rate (p.buy.mortgage_term_years * 12) := by
        intro h1
        have hy0 : y = 0 := by omega
        subst hy0
        show monthly_repayment p.buy.loan_amount (p.buy.rate_for_year 1)
            (p.buy.mortgage_term_years * 12)
          = monthly_repayment p.buy.loan_amount p.buy.mortgage_rate
            (p.buy.mortgage_term_years * 12)
        rw [rate_for_year_none p.buy hsched]
      exact ⟨mc_step_agrees p (y + 1) (detStateAt p sd y) _ hsched hfrank
          hmr0 hmr1 happ0 happ1 hret0 hret1 hri0 hri1 hinf0 hinf1 hterm hag
          hdcr hbal0 hpmtpos hpay hpmt1,
        detStep_invariants p (y + 1) (detStateAt p sd y) hsched hdcr hbal0
          hpmtpos⟩

/-- C1 counterexample: the claim quantifies over every valid
`ScenarioParams`, but the Monte Carlo engine subtracts the first home owner
grant from the upfront buy cost while the deterministic engine does not.
For a first home buyer purchasing a new build in NSW at the default price
the grant is $10,000: already at year 0 the Monte Carlo buy net worth is
210,000 against a deterministic 200,000 on every path, a 5% relative gap,
far beyond the claimed 1e-3 relative tolerance. -/
theorem mc_zero_vol_grant_cex :
    c1GrantParams.buy.get_stamp_duty = Except.ok 0 ∧
    mcBuyNetWorth 1 c1GrantParams 0 (fun _ _ _ => 0) 0 0 = 210000 ∧
    ((simulateCore c1GrantParams 0).getD 0 default).buy_net_worth = 200000 ∧
    |(210000 : ℚ) - 200000| > (1/1000) * |(200000 : ℚ)| := by
  have hU : pyUpper "NSW" = "NSW" := by decide
  refine ⟨?_, ?_, ?_, by norm_num⟩
  · norm_num [BuyParams.get_stamp_duty, calc_stamp_duty, calc_nsw_stamp_duty,
      hU, c1GrantParams]
  · norm_num [mcBuyNetWorth, mcStateAt, mcInit, mcUpfront, fhog, FHOG_AMOUNTS,
      hU, BuyParams.deposit, BuyParams.loan_amount, max_eq_left, c1GrantParams]
    rw [if_neg (by decide : ¬ ("NSW" : String) = "QLD")]
    norm_num [max_eq_left]
  · norm_num [simulateCore, detSnapshot0, detInit, detUpfront,
      BuyParams.deposit, BuyParams.loan_amount, max_eq_left, c1GrantParams]

/-- C1 (amended): zero-volatility equivalence holds exactly (not merely to
1e-3) once the engines' known asymmetries are excluded: no first home owner
grant (the MC engine deducts it upfront, the deterministic one never does),
no rate schedule, no franked dividends, a positive investment return, all
five base rates inside the Monte Carlo clip corridor, a sane purchase
(non-negative price, deposit within price, at least a 1-year term), and no
year repaying the loan strictly before its 12th month (where the MC
closed-form annuity and the deterministic monthly loop genuinely differ).
Under these conditions every path's buy net worth, rent net worth,
property value and mortgage balance coincide with the deterministic
snapshot at every year. -/
theorem mc_zero_vol_agreement (p : ScenarioParams) (sd : ℚ) (N : ℕ)
    (hsd : p.buy.get_stamp_duty = Except.ok sd)
    (hsched : p.buy.rate_schedule = none)
    (hfhb : p.buy.first_home_buyer = false)
    (hfrank : p.investment.franking_rate = 0)
    (hprice : 0 ≤ p.buy.purchase_price)
    (hdp : p.buy.deposit_pct ≤ 1)
    (hterm : 1 ≤ p.buy.mortgage_term_years)
    (hmr0 : 1/100 ≤ p.buy.mortgage_rate) (hmr1 : p.buy.mortgage_rate ≤ 15/100)
    (happ0 : -(20/100) ≤ p.buy.property_appreciation_rate)
    (happ1 : p.buy.property_appreciation_rate ≤ 30/100)
    (hret0 : 0 < p.investment.return_rate)
    (hret1 : p.investment.return_rate ≤ 50/100)
    (hri0 : 0 ≤ p.rent.rent_increase_rate)
    (hri1 : p.rent.rent_increase_rate ≤ 15/100)
    (hinf0 : 0 ≤ p.inflation_rate) (hinf1 : p.inflation_rate ≤ 12/100)
    (hnomid : noMidYearPayoff p sd = true)
    (y : ℕ) (hy : y ≤ p.time_horizon_years) (i : Fin N) :
    mcBuyNetWorth N p sd (fun _ _ _ => 0) y i
        = ((simulateCore p sd).getD y default).buy_net_worth ∧
    mcRentNetWorth N p sd (fun _ _ _ => 0) y i
        = ((simulateCore p sd).getD y default).rent_net_worth ∧
    mcPropertyValues N p sd (fun _ _ _ => 0) y i
        = ((simulateCore p sd).getD y default).property_value ∧
    mcMortgageBalances N p sd (fun _ _ _ => 0) y i
        = ((simulateCore p sd).getD y default).mortgage_balance := by
  obtain ⟨hag, -, -, -⟩ := mcStateAt_agrees p sd N hsched hfhb hfrank hprice
    hdp hterm hmr0 hmr1 happ0 happ1 hret0 hret1 hri0 hri1 hinf0 hinf1
    hnomid y hy
  obtain ⟨hp, hb, -, -, hbi, hri', -, -⟩ := hag
  cases y with
  | zero =>
      refine ⟨?_, ?_, ?_, ?_⟩
      · simp only [mcBuyNetWorth, hp, hb, hbi, simulateCore,
          List.getD_cons_zero]
        rfl
      · simp only [mcRentNetWorth, hri', simulateCore, List.getD_cons_zero]
        rfl
      · simp only [mcPropertyValues, hp, simulateCore, List.getD_cons_zero]
        rfl
      · simp only [mcMortgageBalances, hb, simulateCore, List.getD_cons_zero]
        rfl
  | succ j =>
      have hsnap := simulateCore_getD_succ p sd j (Nat.lt_of_succ_le hy)
      refine ⟨?_, ?_, ?_, ?_⟩
      · simp only [mcBuyNetWorth, hp, hb, hbi, hsnap]
        rfl
      · simp only [mcRentNetWorth, hri', hsnap]
        rfl
      · simp only [mcPropertyValues, hp, hsnap]
        rfl
      · simp only [mcMortgageBalances, hb, hsnap]
        rfl

/-- C1 witness: the amended equivalence at a concrete 1-year zero-shock
scenario whose single mortgage year amortizes to exactly zero at month 12. -/
theorem mc_zero_vol_agreement_witness :
    mcBuyNetWorth 1 c1WitnessParams 0 (fun _ _ _ => 0) 1 0
        = ((simulateCore c1WitnessParams 0).getD 1 default).buy_net_worth ∧
    mcMortgageBalances 1 c1WitnessParams 0 (fun _ _ _ => 0) 1 0
        = ((simulateCore c1WitnessParams 0).getD 1 default).mortgage_balance
    := by
  have hnomid : noMidYearPayoff c1WitnessParams 0 = true := by
    rw [noMidYearPayoff]
    have hT : c1WitnessParams.time_horizon_years = 1 := rfl
    rw [hT, show List.range 1 = [0] from rfl]
    simp only [List.all_cons, List.all_nil, Bool.and_true, Bool.or_eq_true,
      decide_eq_true_eq]
    right
    have hcr : (detStateAt c1WitnessParams 0 0).current_rate = 12/100 := by
      norm_num [detStateAt, detInit, BuyParams.rate_for_year, c1WitnessParams]
    have hbal : (detStateAt c1WitnessParams 0 0).mortgage_bal = 80 := by
      norm_num [detStateAt, detInit, BuyParams.loan_amount, BuyParams.deposit,
        c1WitnessParams]
    have hpmt : (detStateAt c1WitnessParams 0 0).monthly_pmt
        = 80 * (1/100 * (101/100) ^ 12) / ((101/100) ^ 12 - 1) := by
      norm_num [detStateAt, detInit, monthly_repayment,
        BuyParams.rate_for_year, BuyParams.loan_amount, BuyParams.deposit,
        c1WitnessParams]
    rw [hcr, hbal, hpmt, uncappedBal_closed_form _ _ _ (by norm_num) 12]
    norm_num
  have h := mc_zero_vol_agreement c1WitnessParams 0 1 rfl rfl rfl rfl
    (by norm_num [c1WitnessParams]) (by norm_num [c1WitnessParams])
    (by norm_num [c1WitnessParams]) (by norm_num [c1WitnessParams])
    (by norm_num [c1WitnessParams]) (by norm_num [c1WitnessParams])
    (by norm_num [c1WitnessParams]) (by norm_num [c1WitnessParams])
    (by norm_num [c1WitnessParams]) (by norm_num [c1WitnessParams])
    (by norm_num [c1WitnessParams]) (by norm_num [c1WitnessParams])
    (by norm_num [c1WitnessParams]) hnomid 1
    (by norm_num [c1WitnessParams]) 0
  exact ⟨h.1, h.2.2.2⟩

end Housing
